import Mathlib

/-!
Verification development for the SmartWaterBottle hydration-reminder backend
(`src/api.js`).  The source file contains four serverless handler variants:

* variant 1 (lines 1-168): rule-based, profile supplied in the request body
  (`handler`, `computeContext`, `computeGoalMl`, `computeSchedule`);
* variant 2 (lines 169-357): rule-based, profile from environment config
  (`getConfig`, `parseHM`, `computeGoalMl`, `makeSchedule`, `handler`);
* variants 3/4 (lines 358-828): AI planner with rule fallback
  (`fallbackPlan`, `aiPlan`, `normalizeActivity`, `handler`).

Embedding conventions:
* JS numbers are modelled as `ℚ` (the arithmetic the claims depend on is exact
  in binary64 except for the sub-millisecond phase-boundary offsets, where the
  rational value is taken);
* JS `Date` values are integer milliseconds since the epoch (`ℤ`), with a
  fixed-offset (UTC) local time zone, so `getHours`/`setHours` act on
  `t.emod 86400000`;
* the process-wide `lastNotified` map is threaded explicitly
  (`NState = String → Option ℤ`), and outbound effects are recorded in an
  event trace, in the order the source issues them;
* fallible collaborators (request body parse, Telegram send, the
  text-generation call) are modelled by explicit outcome parameters.
-/

namespace SmartWaterBottle

/-! ## JS primitives -/

/-- JS `Math.round`: round half up (also for negatives), as in JS. -/
def jsRound (q : ℚ) : ℤ := ⌊q + 1/2⌋

/-- Source helper `clamp = (v, lo, hi) => Math.max(lo, Math.min(v, hi))`. -/
def clamp {α : Type} [LinearOrder α] (v lo hi : α) : α := max lo (min v hi)

/-- Milliseconds per day. -/
def msPerDay : ℤ := 86400000

/-- Model of `d.getHours()` for a timestamp `t` (fixed-offset local time). -/
def jdGetHours (t : ℤ) : ℤ := (t.emod msPerDay).ediv 3600000

/-- Model of `d.setHours(h, m, 0, 0)`: start of the local day plus `h` hours and
`m` minutes (JS normalizes out-of-range components this way). -/
def jdSetHours (t h m : ℤ) : ℤ := t - t.emod msPerDay + h * 3600000 + m * 60000

/-- Model of `d.getDay()`: 0 = Sunday .. 6 = Saturday (the epoch day was a Thursday). -/
def jdGetDay (t : ℤ) : ℤ := (t.ediv msPerDay + 4).emod 7

/-- Truncation of a fractional millisecond count by `new Date(x)`, toward zero;
every use below has a nonnegative argument, where truncation is `⌊·⌋`. -/
def jsTrunc (q : ℚ) : ℤ := ⌊q⌋

/-- JS `x || d` for an optional string field (empty string is falsy). -/
def jsOrString (v : Option String) (d : String) : String :=
  match v with
  | none => d
  | some s => if s = "" then d else s

/-- JS `Number(x) || d` for an optional numeric field (0 is falsy). -/
def jsOrNum (v : Option ℚ) (d : ℚ) : ℚ :=
  match v with
  | none => d
  | some x => if x = 0 then d else x

/-- Substring test on character lists (used to model `String.includes` /
substring regex tests). -/
def isSubListOf (needle : List Char) : List Char → Bool
  | [] => needle.isEmpty
  | c :: rest => needle.isPrefixOf (c :: rest) || isSubListOf needle rest

/-- JS `hay.includes(needle)` on strings. -/
def strContains (hay needle : String) : Bool := isSubListOf needle.data hay.data

/-- JS `s.toLowerCase()`, as a character-wise map (the activity keywords are
ASCII). -/
def jsToLower (s : String) : String := ⟨s.data.map Char.toLower⟩

/-! ## Time-of-day parsing -/

/-- Numeric value of a decimal digit character. -/
def digitVal (c : Char) : ℤ := (c.toNat : ℤ) - 48

/-- Variant 1 `parseHM` (inside `computeContext`):
`/^\d{2}:\d{2}$/.test(s || '') ? …setHours(a, b, 0, 0)… : null`.
No clamping of the parsed hour/minute. -/
def parseHM1 (s : Option String) (t : ℤ) : Option ℤ :=
  match s with
  | none => none
  | some str =>
    match str.data with
    | [h1, h2, c, m1, m2] =>
      if h1.isDigit && h2.isDigit && c = ':' && m1.isDigit && m2.isDigit then
        some (jdSetHours t (digitVal h1 * 10 + digitVal h2) (digitVal m1 * 10 + digitVal m2))
      else none
    | _ => none

/-- Variants 2-4 `parseHM(s, defH, defM)`:
`/^(\d{1,2}):(\d{2})$/` with hour clamped to 0-23 and minute to 0-59,
falling back to `defH:defM` of the current day. -/
def parseHM2 (s : String) (defH defM t : ℤ) : ℤ :=
  match s.data with
  | [h1, c, m1, m2] =>
    if h1.isDigit && c = ':' && m1.isDigit && m2.isDigit then
      jdSetHours t (clamp (digitVal h1) 0 23) (clamp (digitVal m1 * 10 + digitVal m2) 0 59)
    else jdSetHours t defH defM
  | [h1, h2, c, m1, m2] =>
    if h1.isDigit && h2.isDigit && c = ':' && m1.isDigit && m2.isDigit then
      jdSetHours t (clamp (digitVal h1 * 10 + digitVal h2) 0 23)
        (clamp (digitVal m1 * 10 + digitVal m2) 0 59)
    else jdSetHours t defH defM
  | _ => jdSetHours t defH defM

/-! ## Variant 1 profile and context -/

/-- Raw request profile (`body.profile`), all fields optional. -/
structure Profile where
  name : Option String := none
  age : Option ℚ := none
  weight_kg : Option ℚ := none
  activity_level : Option String := none
  daily_activity_minutes : Option ℚ := none
  medical_conditions : Option (List String) := none
  clinician_limit_ml : Option ℚ := none
  temp_c : Option ℚ := none
  humidity_pct : Option ℚ := none
  wake_time : Option String := none
  sleep_time : Option String := none
deriving DecidableEq

/-- Normalized context produced by variant 1 `computeContext`. -/
structure Ctx where
  name : String
  age : Option ℚ
  weight_kg : ℚ
  activity_level : String
  daily_activity_minutes : ℚ
  medical_conditions : List String
  clinician_limit_ml : Option ℚ
  temp_c : Option ℚ
  humidity_pct : Option ℚ
  wake : ℤ
  sleep : ℤ
deriving DecidableEq

/-- Variant 1 `computeContext(p, now)`.  Returns the context **and** the value
of `now` after the call: when `p.wake_time` is not a valid `"HH:MM"` string the
source evaluates `new Date(now.setHours(7,0,0,0))`, which mutates the shared
`now` object to 07:00:00.000 of the current day.  The `sleep` default uses a
fresh `new Date()` (the original instant `now`). -/
def computeContext (p : Profile) (now : ℤ) : Ctx × ℤ :=
  let wakeP := parseHM1 p.wake_time now
  let now1 := match wakeP with
    | some _ => now
    | none => jdSetHours now 7 0
  let wake := wakeP.getD (jdSetHours now 7 0)
  let sleep := (parseHM1 p.sleep_time now1).getD (jdSetHours now 23 0)
  ({ name := jsOrString p.name "friend"
     age := match p.age with
       | none => none
       | some a => if a = 0 then none else some a
     weight_kg := jsOrNum p.weight_kg 60
     activity_level := jsOrString p.activity_level "Light"
     daily_activity_minutes := jsOrNum p.daily_activity_minutes 30
     medical_conditions := p.medical_conditions.getD []
     clinician_limit_ml := p.clinician_limit_ml
     temp_c := p.temp_c
     humidity_pct := p.humidity_pct
     wake := wake
     sleep := sleep }, now1)

/-! ## Goal calculators -/

/-- Lookup `{Sedentary:0, Light:200, Moderate:400, Heavy:600}[activity_level] ?? 200`. -/
def activityAdd (act : String) : ℤ :=
  if act = "Sedentary" then 0
  else if act = "Light" then 200
  else if act = "Moderate" then 400
  else if act = "Heavy" then 600
  else 200

/-- Condition `(ctx.temp_c != null && ctx.temp_c >= 30) || (ctx.humidity_pct != null && ctx.humidity_pct >= 70)`. -/
def envAddCond (ctx : Ctx) : Bool :=
  (match ctx.temp_c with
   | some v => decide (v ≥ 30)
   | none => false) ||
  (match ctx.humidity_pct with
   | some v => decide (v ≥ 70)
   | none => false)

/-- Variant 1 `computeGoalMl(ctx)` (lines 111-124).  The result is rational
because `min(goal, clinician_limit_ml)` can pick the raw limit. -/
def computeGoalMl (ctx : Ctx) : ℚ :=
  let goal1 : ℤ := jsRound (35 * ctx.weight_kg)
  let blocks : ℤ := max 0 (jsRound (ctx.daily_activity_minutes / 30))
  let goal2 : ℤ := goal1 + blocks * activityAdd ctx.activity_level
  let goal3 : ℤ := if envAddCond ctx then goal2 + 300 else goal2
  let goal4 : ℚ := match ctx.clinician_limit_ml with
    | some l => min (goal3 : ℚ) l
    | none => (goal3 : ℚ)
  let goal5 : ℚ :=
    if (ctx.medical_conditions.contains "ckd" || ctx.medical_conditions.contains "hf")
        && ctx.clinician_limit_ml.isNone then
      min goal4 2000
    else goal4
  clamp goal5 1200 4000

/-- Variant 2 `computeGoalMl(weight_kg, activity_level, daily_minutes)`
(lines 222-232). -/
def computeGoalMl2 (weight_kg : ℚ) (activity_level : String) (daily_minutes : ℚ) : ℤ :=
  let goal1 : ℤ := jsRound (35 * weight_kg)
  let blocks : ℤ := max 0 (jsRound (daily_minutes / 30))
  clamp (goal1 + blocks * activityAdd activity_level) 1200 4000

/-! ## Pacing schedules -/

/-- Morning goal fraction by activity level. -/
def schedMorning (act : String) : ℚ :=
  if act = "Heavy" then 1/4 else if act = "Moderate" then 3/10 else 7/20

/-- Afternoon goal fraction by activity level. -/
def schedAfternoon (act : String) : ℚ :=
  if act = "Heavy" then 11/20 else if act = "Moderate" then 1/2 else 9/20

/-- Morning phase end `new Date(wake.getTime() + durMs * 0.33)` with `durMs = max(1, sleep - wake)`;
the argument is nonnegative, so JS truncation is `⌊·⌋`. -/
def tMorningEnd (wake sleep : ℤ) : ℤ :=
  wake + jsTrunc ((max 1 (sleep - wake) : ℤ) * (33/100 : ℚ))

/-- Afternoon phase end `new Date(wake.getTime() + durMs * 0.80)`. -/
def tAfternoonEnd (wake sleep : ℤ) : ℤ :=
  wake + jsTrunc ((max 1 (sleep - wake) : ℤ) * (80/100 : ℚ))

/-- The shared `fractionAt(now)` closure body of `computeSchedule` /
`makeSchedule` (both copies are textually identical). -/
def fractionAt (act : String) (wake sleep now : ℤ) : ℚ :=
  if now ≤ wake then 0
  else if sleep ≤ now then 1
  else if now ≤ tMorningEnd wake sleep then
    (((now - wake : ℤ) : ℚ) / ((tMorningEnd wake sleep - wake : ℤ) : ℚ)) * schedMorning act
  else if now ≤ tAfternoonEnd wake sleep then
    schedMorning act +
      (((now - tMorningEnd wake sleep : ℤ) : ℚ) /
        ((tAfternoonEnd wake sleep - tMorningEnd wake sleep : ℤ) : ℚ)) * schedAfternoon act
  else
    schedMorning act + schedAfternoon act +
      (((now - tAfternoonEnd wake sleep : ℤ) : ℚ) /
        ((sleep - tAfternoonEnd wake sleep : ℤ) : ℚ)) *
        (1 - (schedMorning act + schedAfternoon act))

/-- Variant 1 `computeSchedule(ctx)` (lines 126-153), as its `fractionAt`. -/
def computeSchedule (ctx : Ctx) : ℤ → ℚ :=
  fractionAt ctx.activity_level ctx.wake ctx.sleep

/-- Variant 2 `makeSchedule(activity_level, wakeStr, sleepStr)` (lines 234-262),
evaluated at instant `t`. -/
def makeSchedule (act wakeStr sleepStr : String) (t : ℤ) : ℤ → ℚ :=
  fractionAt act (parseHM2 wakeStr 7 0 t) (parseHM2 sleepStr 23 0 t)

/-! ## Shared handler plumbing -/

/-- The `lastNotified` map: recipient id to last-notified timestamp (ms). -/
def NState : Type := String → Option ℤ

/-- Outbound effects of one invocation, in issue order. -/
inductive Event where
  | send (chat : String)
  | writeTs (chat : String) (t : ℤ)
deriving DecidableEq

/-- HTTP response of the rule-based handlers. -/
inductive Resp where
  | methodNotAllowed
  | badRequest
  | envError
  | serverError
  | skipped (reason : String)
  | notified (goal_ml : ℚ) (target_ml_now : ℤ) (next_sip_ml : ℤ)
deriving DecidableEq

/-- Catch-up sip lower bound by activity level (lines 55/310). -/
def baseMin (act : String) : ℤ :=
  if act = "Heavy" then 200 else if act = "Moderate" then 180 else 150

/-- Catch-up sip upper bound by activity level (lines 56/311). -/
def baseMax (act : String) : ℤ :=
  if act = "Heavy" then 300 else if act = "Moderate" then 250 else 220

/-! ## Variant 1 handler (profile in request, lines 10-91) -/

/-- Variant 1 request body `{ pct, ml, cm, ts, profile }`. -/
structure Body1 where
  ml : Option ℚ := none
  pct : Option ℚ := none
  cm : Option ℚ := none
  profile : Option Profile := none
deriving DecidableEq

/-- The context of variant 1's request (`const ctx = computeContext(profile, now)`). -/
def ctx1 (p : Profile) (t : ℤ) : Ctx := (computeContext p t).1

/-- The value of variant 1's `now` object after `computeContext` ran
(possibly mutated by `now.setHours(7,0,0,0)`). -/
def nowAfterCtx (p : Profile) (t : ℤ) : ℤ := (computeContext p t).2

/-- Variant 1 line 32: `const goal_ml = computeGoalMl(ctx)`. -/
def goal1 (p : Profile) (t : ℤ) : ℚ := computeGoalMl (ctx1 p t)

/-- Variant 1 line 34: `Math.round(goal_ml * sched.fractionAt(now))`, where
`now` is the post-`computeContext` object. -/
def target1 (p : Profile) (t : ℤ) : ℤ :=
  jsRound (goal1 p t * computeSchedule (ctx1 p t) (nowAfterCtx p t))

/-- Variant 1 lines 52-57: the recommended sip. -/
def sip1 (p : Profile) (t : ℤ) (ml : ℚ) : ℤ :=
  clamp (jsRound (max 0 ((target1 p t : ℚ) - ml) / 3))
    (baseMin (ctx1 p t).activity_level) (baseMax (ctx1 p t).activity_level)

/-- Variant 1 `handler`.  `envChat`/`envBot` are `CHAT_ID`/`BOT_TOKEN`;
`body = none` models a request body whose JSON parse throws (caught as 500);
`t` is the invocation instant (both `new Date()` and `Date.now()`); `sendOk`
tells whether the outbound Telegram send succeeds (a rejection is caught by
the top-level handler as 500). -/
def handler1 (envChat envBot : Option String) (method : String) (body : Option Body1)
    (t : ℤ) (st : NState) (sendOk : Bool) : Resp × NState × List Event :=
  if method ≠ "POST" then (.methodNotAllowed, st, [])
  else
    match body with
    | none => (.serverError, st, [])
    | some b =>
      match b.ml, b.pct with
      | some ml, some pct =>
        if envChat.isNone || envBot.isNone then (.envError, st, [])
        else if jdGetHours t ≥ 23 ∨ jdGetHours t < 7 then (.skipped "quiet_hours", st, [])
        else if ((t - (st (envChat.getD "")).getD 0 : ℤ) : ℚ) < 30 * 60 * 1000 then
          (.skipped "interval", st, [])
        else if ¬(ml + 50 < (target1 (b.profile.getD {}) t : ℚ) ∨ pct < 40) ∨
            max 0 (goal1 (b.profile.getD {}) t - ml) ≤ 0 then
          (.skipped "on_track_or_done", st, [])
        else if sendOk then
          (.notified (goal1 (b.profile.getD {}) t) (target1 (b.profile.getD {}) t)
             (sip1 (b.profile.getD {}) t ml),
           fun k => if k = envChat.getD "" then some t else st k,
           [.send (envChat.getD ""), .writeTs (envChat.getD "") t])
        else (.serverError, st, [.send (envChat.getD "")])
      | _, _ => (.badRequest, st, [])

/-! ## Variant 2 handler (env-config, lines 264-349) -/

/-- Variants 2-4 request body `{ ml, pct, cm }`. -/
structure Body where
  ml : Option ℚ := none
  pct : Option ℚ := none
  cm : Option ℚ := none
deriving DecidableEq

/-- Result of variant 2 `getConfig()`; structure defaults are the env-var
defaults of lines 188-209. -/
structure Config2 where
  BOT_TOKEN : Option String
  CHAT_ID : Option String
  NAME : String := "friend"
  WEIGHT_KG : ℚ := 70
  ACTIVITY_LEVEL : String := "Moderate"
  DAILY_ACTIVITY_MINUTES : ℚ := 60
  WAKE_TIME : String := "07:00"
  SLEEP_TIME : String := "23:00"
  QUIET_START : ℤ := 23
  QUIET_END : ℤ := 7
  MIN_INTERVAL_MIN : ℚ := 30
deriving DecidableEq

/-- Variant 2 line 289: the day's goal. -/
def goal2 (cfg : Config2) : ℤ :=
  computeGoalMl2 cfg.WEIGHT_KG cfg.ACTIVITY_LEVEL cfg.DAILY_ACTIVITY_MINUTES

/-- Variant 2 line 291: `Math.round(goal_ml * sched.fractionAt(now))`. -/
def target2 (cfg : Config2) (t : ℤ) : ℤ :=
  jsRound ((goal2 cfg : ℚ) * makeSchedule cfg.ACTIVITY_LEVEL cfg.WAKE_TIME cfg.SLEEP_TIME t t)

/-- Variant 2 lines 309-312: the recommended sip. -/
def sip2 (cfg : Config2) (t : ℤ) (ml : ℚ) : ℤ :=
  clamp (jsRound (max 0 ((target2 cfg t : ℚ) - ml) / 3))
    (baseMin cfg.ACTIVITY_LEVEL) (baseMax cfg.ACTIVITY_LEVEL)

/-- Variant 2 `handler` (lines 264-349).  The optional OpenAI rephrase only
rewrites the message text and is dropped from the embedding. -/
def handler2 (cfg : Config2) (method : String) (body : Option Body)
    (t : ℤ) (st : NState) (sendOk : Bool) : Resp × NState × List Event :=
  if method ≠ "POST" then (.methodNotAllowed, st, [])
  else if cfg.BOT_TOKEN.isNone || cfg.CHAT_ID.isNone then (.envError, st, [])
  else
    match body with
    | none => (.serverError, st, [])
    | some b =>
      match b.ml, b.pct with
      | some ml, some pct =>
        if jdGetHours t ≥ cfg.QUIET_START ∨ jdGetHours t < cfg.QUIET_END then
          (.skipped "quiet_hours", st, [])
        else if ((t - (st (cfg.CHAT_ID.getD "")).getD 0 : ℤ) : ℚ) <
            cfg.MIN_INTERVAL_MIN * 60 * 1000 then
          (.skipped "interval", st, [])
        else if ¬(ml + 50 < (target2 cfg t : ℚ) ∨ pct < 40) ∨
            max 0 ((goal2 cfg : ℚ) - ml) ≤ 0 then
          (.skipped "on_track_or_done", st, [])
        else if sendOk then
          (.notified (goal2 cfg : ℚ) (target2 cfg t) (sip2 cfg t ml),
           fun k => if k = cfg.CHAT_ID.getD "" then some t else st k,
           [.send (cfg.CHAT_ID.getD ""), .writeTs (cfg.CHAT_ID.getD "") t])
        else (.serverError, st, [.send (cfg.CHAT_ID.getD "")])
      | _, _ => (.badRequest, st, [])

/-! ## Variant 3 (AI planner with fallback, lines 358-614) -/

/-- Result of variant 3 `getConfig()` (lines 375-415), defaults included. -/
structure Config3 where
  BOT_TOKEN : Option String
  CHAT_ID : Option String
  NAME : String := "friend"
  AGE : ℚ := 22
  WEIGHT_KG : ℚ := 70
  HEIGHT_CM : ℚ := 170
  ACT_MON : String := "Moderate"
  ACT_TUE : String := "Moderate"
  ACT_WED : String := "Moderate"
  ACT_THU : String := "Moderate"
  ACT_FRI : String := "Moderate"
  ACT_SAT : String := "Light"
  ACT_SUN : String := "Light"
  WAKE_TIME : String := "07:00"
  SLEEP_TIME : String := "23:00"
  QUIET_START : ℤ := 23
  QUIET_END : ℤ := 7
  MIN_INTERVAL_MIN : ℚ := 30
  CLINICIAN_LIMIT_ML : Option ℚ := none
deriving DecidableEq

/-- Result of a JS numeric conversion or arithmetic step: a number or `NaN`
(the parsed text-generation JSON is untrusted, so `Number(...)` can yield
NaN, which then propagates through `Math.round`/`Math.min`/`Math.max`). -/
inductive JsNum where
  | num (q : ℚ)
  | nan
deriving DecidableEq

/-- An untrusted field of the parsed text-generation JSON, as the sanitizer's
`Number(data.x || 0)` sees it: `absent` for a missing or falsy field
(`x || 0` yields 0), `num q` for a truthy value that `Number` coerces to the
number `q` (numbers, numeric strings), `nonNumeric` for a truthy value that
`Number` coerces to NaN (e.g. a word string, an object). -/
inductive AiField where
  | absent
  | num (q : ℚ)
  | nonNumeric
deriving DecidableEq

/-- The `Number(x || 0)` step of the sanitizer, per field kind. -/
def AiField.toNumber : AiField → JsNum
  | .absent => .num 0
  | .num q => .num q
  | .nonNumeric => .nan

/-- `Math.round` on a possibly-NaN value (`Math.round(NaN)` is NaN). -/
def jsRoundN : JsNum → JsNum
  | .num q => .num ((jsRound q : ℤ) : ℚ)
  | .nan => .nan

/-- `Math.min` on possibly-NaN values (NaN-propagating). -/
def jsMinN : JsNum → JsNum → JsNum
  | .num a, .num b => .num (min a b)
  | _, _ => .nan

/-- `Math.max` on possibly-NaN values (NaN-propagating). -/
def jsMaxN : JsNum → JsNum → JsNum
  | .num a, .num b => .num (max a b)
  | _, _ => .nan

/-- The source `clamp` helper on possibly-NaN values:
`Math.max(lo, Math.min(v, hi))`. -/
def clampN (v lo hi : JsNum) : JsNum := jsMaxN lo (jsMinN v hi)

/-- `a - b` where the left operand may be NaN. -/
def jsSubN (a : JsNum) (b : ℚ) : JsNum :=
  match a with
  | .num q => .num (q - b)
  | .nan => .nan

/-- JS `a <= b`: every comparison with NaN is false. -/
def jsLeN (a : JsNum) (b : ℚ) : Bool :=
  match a with
  | .num q => decide (q ≤ b)
  | .nan => false

/-- A hydration plan, the common shape returned by `fallbackPlan` and
`aiPlan` (the AI plan leaves `remaining_ml` unset).  The numeric fields are
`JsNum` because the sanitized AI plan's values are NaN when the parsed
response carries non-numeric field values; `fallbackPlan` always produces
numbers. -/
structure Plan where
  goal_ml : JsNum
  target_ml_now : JsNum
  remaining_ml : Option ℚ := none
  next_sip_ml : JsNum
  should_notify : Bool
  reason : String
deriving DecidableEq

/-- Lookup `{Sedentary:0, Light:400, Moderate:800, Heavy:1200}[activity] ?? 400`. -/
def flatActivityAdd (act : String) : ℤ :=
  if act = "Sedentary" then 0
  else if act = "Light" then 400
  else if act = "Moderate" then 800
  else if act = "Heavy" then 1200
  else 400

/-- The `frac` closure of variant 3 `fallbackPlan` (lines 429-435): fixed
0.35 / 0.45 / 0.20 phase fractions. -/
def fallbackFrac (wake sleep now : ℤ) : ℚ :=
  if now ≤ wake then 0
  else if sleep ≤ now then 1
  else if now ≤ tMorningEnd wake sleep then
    (((now - wake : ℤ) : ℚ) / ((tMorningEnd wake sleep - wake : ℤ) : ℚ)) * (35/100)
  else if now ≤ tAfternoonEnd wake sleep then
    35/100 +
      (((now - tMorningEnd wake sleep : ℤ) : ℚ) /
        ((tAfternoonEnd wake sleep - tMorningEnd wake sleep : ℤ) : ℚ)) * (45/100)
  else
    35/100 + 45/100 +
      (((now - tAfternoonEnd wake sleep : ℤ) : ℚ) /
        ((sleep - tAfternoonEnd wake sleep : ℤ) : ℚ)) * (20/100)

/-- Variant 3 `fallbackPlan({weight_kg, activity}, mlNow, pctNow, now)`
(lines 418-448); the wake/sleep window is hard-coded to 07:00-23:00.  The
`now` instant is also used for `parseHM`'s internal `new Date()`. -/
def fallbackPlan (weight_kg : ℚ) (activity : String) (mlNow pctNow : ℚ) (now : ℤ) : Plan :=
  let goal : ℤ := clamp (jsRound (35 * weight_kg) + flatActivityAdd activity) 1200 4000
  let wake := parseHM2 "07:00" 7 0 now
  let sleep := parseHM2 "23:00" 7 0 now
  let frac := fallbackFrac wake sleep now
  let targetByNow : ℤ := jsRound ((goal : ℚ) * frac)
  let remaining : ℚ := max 0 ((goal : ℚ) - mlNow)
  let next_sip_ml : ℤ := clamp (jsRound (max 0 ((targetByNow : ℚ) - mlNow) / 3)) 150 250
  { goal_ml := .num (goal : ℚ)
    target_ml_now := .num (targetByNow : ℚ)
    remaining_ml := some remaining
    next_sip_ml := .num (next_sip_ml : ℚ)
    should_notify :=
      decide ((mlNow + 50 < (targetByNow : ℚ) ∨ pctNow < 40) ∧ remaining > 0)
    reason := "fallback" }

/-- Fields the handler reads from the parsed text-generation JSON; the three
numeric fields are untrusted `AiField`s (absent, numeric, or non-numeric),
`should_notify` is already boolean after the JS `!!` coercion (absent gives
`false`), and `short_reason` is `none` when omitted
(`data.short_reason || ''`). -/
structure AiData where
  daily_goal_ml : AiField := .absent
  target_ml_by_now : AiField := .absent
  next_sip_ml : AiField := .absent
  should_notify : Bool := false
  short_reason : Option String := none
deriving DecidableEq

/-- Outcome of the text-generation call as seen by `aiPlan`:
no content in the response, content that `JSON.parse` rejects, or a parsed
JSON object. -/
inductive AiResp where
  | noOutput
  | unparseable
  | parsed (data : AiData)
deriving DecidableEq

/-- Variant 3 `aiPlan` (lines 460-515), from the call outcome: a missing
`choices[0].message.content` and a `JSON.parse` failure are thrown (modelled
as `Except.error`, caught by the handler); a *parsed* response — even one
with missing fields — is sanitized and used: goal
`clamp(Math.round(Number(x || 0)), 800, 6000)`, target
`clamp(…, 0, goal)`, sip `clamp(…, 120, 300)`, reason cut at 140 characters.
A non-numeric field value makes `Number` yield NaN, which passes through
round and clamp unchanged. -/
def aiPlan (resp : AiResp) : Except String Plan :=
  match resp with
  | .noOutput => .error "no_ai_output"
  | .unparseable => .error "json_parse_error"
  | .parsed d =>
    .ok { goal_ml := clampN (jsRoundN d.daily_goal_ml.toNumber) (.num 800) (.num 6000)
          target_ml_now := clampN (jsRoundN d.target_ml_by_now.toNumber) (.num 0)
            (clampN (jsRoundN d.daily_goal_ml.toNumber) (.num 800) (.num 6000))
          next_sip_ml := clampN (jsRoundN d.next_sip_ml.toNumber) (.num 120) (.num 300)
          should_notify := d.should_notify
          reason := (d.short_reason.getD "").take 140 }

/-- Day-of-week activity lookup (lines 544-547):
`{1:MON, …, 6:SAT, 0:SUN}[dow] || 'Light'`. -/
def dayActivityOf (cfg : Config3) (dow : ℤ) : String :=
  let v : Option String :=
    if dow = 1 then some cfg.ACT_MON
    else if dow = 2 then some cfg.ACT_TUE
    else if dow = 3 then some cfg.ACT_WED
    else if dow = 4 then some cfg.ACT_THU
    else if dow = 5 then some cfg.ACT_FRI
    else if dow = 6 then some cfg.ACT_SAT
    else if dow = 0 then some cfg.ACT_SUN
    else none
  match v with
  | none => "Light"
  | some s => if s = "" then "Light" else s

/-- Source `normalizeActivity` (lines 597-606): case-insensitive substring match,
enum words first, then intensity keywords, else `'Light'`. -/
def normalizeActivity (s : String) : String :=
  let t := jsToLower s
  if strContains t "heavy" then "Heavy"
  else if strContains t "moderate" then "Moderate"
  else if strContains t "sedentary" then "Sedentary"
  else if strContains t "light" then "Light"
  else if strContains t "run" || strContains t "gym" || strContains t "match" ||
      strContains t "intense" || strContains t "cycle" then "Heavy"
  else if strContains t "walk" || strContains t "jog" || strContains t "yoga" ||
      strContains t "swim" then "Moderate"
  else "Light"

/-- HTTP response of the AI-planner handler (its payloads carry the plan). -/
inductive Resp3 where
  | methodNotAllowed
  | badRequest
  | envError
  | serverError
  | skipped (reason : String) (plan : Option Plan)
  | notified (plan : Plan)
deriving DecidableEq

/-- The plan variant 3's handler uses (lines 563-573): the sanitized AI plan
when a key is set and the call succeeded, the rule fallback otherwise. -/
def plan3 (cfg : Config3) (hasKey : Bool) (ai : AiResp) (ml pct : ℚ) (t : ℤ) : Plan :=
  if hasKey then
    match aiPlan ai with
    | .ok p => p
    | .error _ =>
      fallbackPlan cfg.WEIGHT_KG (normalizeActivity (dayActivityOf cfg (jdGetDay t))) ml pct t
  else fallbackPlan cfg.WEIGHT_KG (normalizeActivity (dayActivityOf cfg (jdGetDay t))) ml pct t

/-- Variant 3 `handler` (lines 517-595).  `hasKey` is whether
`OPENAI_API_KEY` is set and `ai` the outcome of the text-generation call;
an `aiPlan` error is caught and replaced by the rule-based fallback. -/
def handler3 (cfg : Config3) (method : String) (body : Option Body)
    (t : ℤ) (st : NState) (sendOk : Bool) (hasKey : Bool) (ai : AiResp) :
    Resp3 × NState × List Event :=
  if method ≠ "POST" then (.methodNotAllowed, st, [])
  else if cfg.BOT_TOKEN.isNone || cfg.CHAT_ID.isNone then (.envError, st, [])
  else
    match body with
    | none => (.serverError, st, [])
    | some b =>
      match b.ml, b.pct with
      | some ml, some pct =>
        if jdGetHours t ≥ cfg.QUIET_START ∨ jdGetHours t < cfg.QUIET_END then
          (.skipped "quiet_hours" none, st, [])
        else if ((t - (st (cfg.CHAT_ID.getD "")).getD 0 : ℤ) : ℚ) <
            cfg.MIN_INTERVAL_MIN * 60 * 1000 then
          (.skipped "interval" none, st, [])
        else if (plan3 cfg hasKey ai ml pct t).should_notify = false ∨
            jsLeN (jsMaxN (.num 0) (jsSubN (plan3 cfg hasKey ai ml pct t).goal_ml ml)) 0
              = true then
          (.skipped "on_track_or_done" (some (plan3 cfg hasKey ai ml pct t)), st, [])
        else if sendOk then
          (.notified (plan3 cfg hasKey ai ml pct t),
           fun k => if k = cfg.CHAT_ID.getD "" then some t else st k,
           [.send (cfg.CHAT_ID.getD ""), .writeTs (cfg.CHAT_ID.getD "") t])
        else (.serverError, st, [.send (cfg.CHAT_ID.getD "")])
      | _, _ => (.badRequest, st, [])

/-! ## Concrete fixtures used by witnesses -/

/-- Empty `lastNotified` map (process start). -/
def stEmpty : NState := fun _ => none

/-- A minimal valid env config (all defaults). -/
def cfgQ : Config2 := { BOT_TOKEN := some "bt", CHAT_ID := some "chat" }

/-- Env config with Heavy activity. -/
def cfgW : Config2 := { BOT_TOKEN := some "bt", CHAT_ID := some "chat", ACTIVITY_LEVEL := "Heavy" }

/-- A benign reading. -/
def bodyQ : Body := { ml := some 0, pct := some 100 }

/-- Reading 900 ml behind the 19:48 pacing target of `cfgW`. -/
def bodyW : Body := { ml := some 2020, pct := some 50 }

/-- Reading with `pct = 30` and `ml` equal to the `cfgW` goal. -/
def bodyT : Body := { ml := some 3650, pct := some 30 }

/-- The `lastNotified` map after `cfgW`'s recipient was notified at 19:48. -/
def stUpd : NState := fun k => if k = "chat" then some 71280000 else stEmpty k

/-- A reading with `pct = 30` for the profile-in-request handler, with no
profile supplied (so `wake_time` is absent). -/
def bodyP : Body1 := { ml := some 100, pct := some 30 }

/-- The activity table exactly as claim C2 writes it (defined on the four
enum values only; `0` elsewhere, where the claim's map is undefined). -/
def specActivityAdd (act : String) : ℤ :=
  if act = "Sedentary" then 0
  else if act = "Light" then 200
  else if act = "Moderate" then 400
  else if act = "Heavy" then 600
  else 0

/-- Modelled from claim C2's words, for comparison with `computeGoalMl`:
`goal_ml = clamp(round(35 × weight_kg) + round(activity_minutes/30) ×
{Sedentary:0, Light:200, Moderate:400, Heavy:600}[activity_level]
(+300 when temp_c ≥ 30 or humidity_pct ≥ 70, when present; then capped by
clinician_limit_ml, else soft-capped at 2000 for "ckd"/"hf"), 1200, 4000)`.
Note the claim's block count `round(activity_minutes/30)` is *not* clamped
below at 0, unlike the source's `Math.max(0, …)`. -/
def claimGoalMl (ctx : Ctx) : ℚ :=
  let base : ℤ := jsRound (35 * ctx.weight_kg)
  let add : ℤ := jsRound (ctx.daily_activity_minutes / 30) * specActivityAdd ctx.activity_level
  let withEnv : ℤ := if envAddCond ctx then base + add + 300 else base + add
  let capped : ℚ := match ctx.clinician_limit_ml with
    | some l => min (withEnv : ℚ) l
    | none =>
      if ctx.medical_conditions.contains "ckd" || ctx.medical_conditions.contains "hf" then
        min (withEnv : ℚ) 2000
      else (withEnv : ℚ)
  clamp capped 1200 4000

/-- Heavy activity with negative configured minutes: the claim's formula and
the code disagree here. -/
def ctxNeg : Ctx :=
  { name := "x", age := none, weight_kg := 100, activity_level := "Heavy",
    daily_activity_minutes := -60, medical_conditions := [], clinician_limit_ml := none,
    temp_c := none, humidity_pct := none, wake := 0, sleep := 0 }

/-- The claim's first particular case: 70 kg, Moderate, 60 minutes. -/
def ctx70 : Ctx :=
  { name := "x", age := none, weight_kg := 70, activity_level := "Moderate",
    daily_activity_minutes := 60, medical_conditions := [], clinician_limit_ml := none,
    temp_c := none, humidity_pct := none, wake := 0, sleep := 0 }

/-- The claim's second particular case: 10 kg, Sedentary. -/
def ctx10 : Ctx :=
  { name := "x", age := none, weight_kg := 10, activity_level := "Sedentary",
    daily_activity_minutes := 30, medical_conditions := [], clinician_limit_ml := none,
    temp_c := none, humidity_pct := none, wake := 0, sleep := 0 }

/-- A profile whose activity is the free-text description `"gym"`. -/
def profGym : Profile := { activity_level := some "gym" }

/-- The plan `aiPlan` produces for an all-missing-fields AI response. -/
def planDefault : Plan :=
  { goal_ml := .num 800, target_ml_now := .num 0, next_sip_ml := .num 120,
    should_notify := false, reason := "" }

/-- A minimal valid AI-variant config (all defaults). -/
def cfgA : Config3 := { BOT_TOKEN := some "bt", CHAT_ID := some "chat" }

/-- A reading far behind pace with a low percentage. -/
def bodyF : Body := { ml := some 100, pct := some 30 }

/-- The fallback plan for `cfgA` (70 kg, Thursday activity Moderate) at noon
of day 0 with reading ml 100 / pct 30. -/
def planFB : Plan :=
  { goal_ml := .num 3250, target_ml_now := .num 1077, remaining_ml := some 3150,
    next_sip_ml := .num 250, should_notify := true, reason := "fallback" }

/-- A parsed AI response whose goal field is a non-numeric value. -/
def dNaN : AiData := { daily_goal_ml := .nonNumeric }

/-- The plan `aiPlan` produces for `dNaN`: NaN escapes the goal and target
clamps. -/
def planNaN : Plan :=
  { goal_ml := .nan, target_ml_now := .nan, next_sip_ml := .num 120,
    should_notify := false, reason := "" }

/-- A profile with inverted wake/sleep times (wake 22:00, sleep 06:00). -/
def profInv : Profile := { wake_time := some "22:00", sleep_time := some "06:00" }

/-- A normalized context with the default 07:00-23:00 window. -/
def ctxS : Ctx :=
  { name := "x", age := none, weight_kg := 60, activity_level := "Light",
    daily_activity_minutes := 30, medical_conditions := [], clinician_limit_ml := none,
    temp_c := none, humidity_pct := none, wake := 25200000, sleep := 82800000 }



/-! ## Branch lemmas for the variant 2 handler -/

lemma handler2_quiet (cfg : Config2) (b : Body) (ml pct : ℚ) (t : ℤ)
    (st : NState) (sendOk : Bool)
    (hbot : cfg.BOT_TOKEN.isNone = false) (hchat : cfg.CHAT_ID.isNone = false)
    (hml : b.ml = some ml) (hpct : b.pct = some pct)
    (hq : jdGetHours t ≥ cfg.QUIET_START ∨ jdGetHours t < cfg.QUIET_END) :
    handler2 cfg "POST" (some b) t st sendOk = (.skipped "quiet_hours", st, []) := by
  unfold handler2
  rw [if_neg (by simp)]
  simp only [hbot, hchat, Bool.or_self, Bool.false_eq_true, if_false, hml, hpct]
  rw [if_pos hq]

lemma handler2_rate (cfg : Config2) (bt ch : String) (b : Body) (ml pct : ℚ) (t : ℤ)
    (st : NState) (sendOk : Bool)
    (hbot : cfg.BOT_TOKEN = some bt) (hchat : cfg.CHAT_ID = some ch)
    (hml : b.ml = some ml) (hpct : b.pct = some pct)
    (hq : ¬(jdGetHours t ≥ cfg.QUIET_START ∨ jdGetHours t < cfg.QUIET_END))
    (hr : ((t - (st ch).getD 0 : ℤ) : ℚ) < cfg.MIN_INTERVAL_MIN * 60 * 1000) :
    handler2 cfg "POST" (some b) t st sendOk = (.skipped "interval", st, []) := by
  unfold handler2
  rw [if_neg (by simp)]
  rw [hbot, hchat]
  simp only [Option.isNone_some, Bool.or_self, Bool.false_eq_true, if_false, hml, hpct]
  rw [if_neg hq]
  simp only [Option.getD_some]
  rw [if_pos hr]

lemma handler2_gate (cfg : Config2) (bt ch : String) (b : Body) (ml pct : ℚ) (t : ℤ)
    (st : NState) (sendOk : Bool)
    (hbot : cfg.BOT_TOKEN = some bt) (hchat : cfg.CHAT_ID = some ch)
    (hml : b.ml = some ml) (hpct : b.pct = some pct)
    (hq : ¬(jdGetHours t ≥ cfg.QUIET_START ∨ jdGetHours t < cfg.QUIET_END))
    (hr : ¬(((t - (st ch).getD 0 : ℤ) : ℚ) < cfg.MIN_INTERVAL_MIN * 60 * 1000)) :
    handler2 cfg "POST" (some b) t st sendOk =
      if ¬(ml + 50 < (target2 cfg t : ℚ) ∨ pct < 40) ∨ max 0 ((goal2 cfg : ℚ) - ml) ≤ 0 then
        (.skipped "on_track_or_done", st, [])
      else if sendOk then
        (.notified (goal2 cfg : ℚ) (target2 cfg t) (sip2 cfg t ml),
         fun k => if k = ch then some t else st k, [.send ch, .writeTs ch t])
      else (.serverError, st, [.send ch]) := by
  unfold handler2
  rw [if_neg (by simp)]
  rw [hbot, hchat]
  simp only [Option.isNone_some, Bool.or_self, Bool.false_eq_true, if_false, hml, hpct]
  rw [if_neg hq]
  simp only [Option.getD_some]
  rw [if_neg hr]

lemma handler2_cases (cfg : Config2) (method : String) (body : Option Body) (t : ℤ)
    (st : NState) (sendOk : Bool) :
    ((handler2 cfg method body t st sendOk).2.1 = st ∧
      (∀ c ts, Event.writeTs c ts ∉ (handler2 cfg method body t st sendOk).2.2) ∧
      ∀ g tg sp, (handler2 cfg method body t st sendOk).1 ≠ .notified g tg sp) ∨
    (∃ g tg sp, (handler2 cfg method body t st sendOk).1 = .notified g tg sp ∧
      (handler2 cfg method body t st sendOk).2.1 =
        (fun k => if k = cfg.CHAT_ID.getD "" then some t else st k) ∧
      (handler2 cfg method body t st sendOk).2.2 =
        [.send (cfg.CHAT_ID.getD ""), .writeTs (cfg.CHAT_ID.getD "") t]) := by
  rcases hE : handler2 cfg method body t st sendOk with ⟨r, st2, tr⟩
  simp only [hE]
  unfold handler2 at hE
  split at hE
  · cases hE; simp
  · split at hE
    · cases hE; simp
    · split at hE
      · cases hE; simp
      · split at hE
        · split at hE
          · cases hE; simp
          · split at hE
            · cases hE; simp
            · split at hE
              · cases hE; simp
              · split at hE
                · cases hE
                  right
                  exact ⟨_, _, _, rfl, rfl, rfl⟩
                · cases hE; simp
        · cases hE; simp

lemma handler2_notified_inv (cfg : Config2) (method : String) (body : Option Body) (t : ℤ)
    (st : NState) (sendOk : Bool) (g : ℚ) (tg sp : ℤ)
    (hE : (handler2 cfg method body t st sendOk).1 = .notified g tg sp) :
    ∃ b ml pct, body = some b ∧ b.ml = some ml ∧ b.pct = some pct ∧
      g = (goal2 cfg : ℚ) ∧ tg = target2 cfg t ∧ sp = sip2 cfg t ml := by
  rcases hF : handler2 cfg method body t st sendOk with ⟨r, st2, tr⟩
  rw [hF] at hE
  simp only [] at hE
  subst hE
  unfold handler2 at hF
  split at hF
  · cases hF
  · split at hF
    · cases hF
    · split at hF
      · cases hF
      · rename_i b
        split at hF
        · rename_i ml pct hml hpct
          split at hF
          · cases hF
          · split at hF
            · cases hF
            · split at hF
              · cases hF
              · split at hF
                · cases hF
                  exact ⟨b, ml, pct, rfl, hml, hpct, rfl, rfl, rfl⟩
                · cases hF
        · cases hF


lemma goal2_cfgW : goal2 cfgW = 3650 := by
  have ha : activityAdd "Heavy" = 600 := by decide
  norm_num [goal2, cfgW, computeGoalMl2, jsRound, clamp, ha, max_def, min_def]

lemma target2_cfgW : target2 cfgW 71280000 = 2920 := by
  have h1 : parseHM2 "07:00" 7 0 71280000 = 25200000 := by decide
  have h2 : parseHM2 "23:00" 23 0 71280000 = 82800000 := by decide
  have h3 : fractionAt "Heavy" 25200000 82800000 71280000 = 4/5 := by
    norm_num [fractionAt, tMorningEnd, tAfternoonEnd, jsTrunc, schedMorning, schedAfternoon]
  have hA : cfgW.ACTIVITY_LEVEL = "Heavy" := rfl
  have hW : cfgW.WAKE_TIME = "07:00" := rfl
  have hS : cfgW.SLEEP_TIME = "23:00" := rfl
  rw [target2, makeSchedule, hA, hW, hS, h1, h2, h3, goal2_cfgW]
  norm_num [jsRound]

lemma sip2_cfgW : sip2 cfgW 71280000 2020 = 300 := by
  have h1 : baseMin "Heavy" = 200 := by decide
  have h2 : baseMax "Heavy" = 300 := by decide
  have hA : cfgW.ACTIVITY_LEVEL = "Heavy" := rfl
  rw [sip2, target2_cfgW, hA, h1, h2]
  norm_num [jsRound, clamp, max_def, min_def]

lemma handler2_cfgW_notify :
    handler2 cfgW "POST" (some bodyW) 71280000 stEmpty true =
      (.notified 3650 2920 300, stUpd, [.send "chat", .writeTs "chat" 71280000]) := by
  rw [handler2_gate cfgW "bt" "chat" bodyW 2020 50 71280000 stEmpty true rfl rfl rfl rfl
    (by decide) (by norm_num [stEmpty, cfgW])]
  rw [target2_cfgW, goal2_cfgW, sip2_cfgW]
  rw [if_neg (by norm_num), if_pos rfl]
  simp only [Prod.mk.injEq, Resp.notified.injEq]
  exact ⟨⟨by norm_num, trivial, trivial⟩, rfl, trivial⟩

/-! ## Claims C1, C4, C5, C6 -/

/-- C1: for every request that passes the quiet-hours and cooldown gates
(and whose outbound send succeeds), the handler notifies iff
`((ml + 50 < target_ml_now) ∨ (pct < 40)) ∧ max 0 (goal_ml - ml) > 0`; and
for `pct = 30` with `ml = goal_ml` the remaining-gate dominates `veryLow` and
the response is skipped `"on_track_or_done"`. -/
theorem C1_decision_engine (cfg : Config2) (bt ch : String) (b : Body) (ml pct : ℚ)
    (t : ℤ) (st : NState)
    (hbot : cfg.BOT_TOKEN = some bt) (hchat : cfg.CHAT_ID = some ch)
    (hml : b.ml = some ml) (hpct : b.pct = some pct)
    (hq : ¬(jdGetHours t ≥ cfg.QUIET_START ∨ jdGetHours t < cfg.QUIET_END))
    (hr : ¬(((t - (st ch).getD 0 : ℤ) : ℚ) < cfg.MIN_INTERVAL_MIN * 60 * 1000)) :
    ((∃ g tg sp, (handler2 cfg "POST" (some b) t st true).1 = .notified g tg sp) ↔
      ((ml + 50 < (target2 cfg t : ℚ) ∨ pct < 40) ∧ max 0 ((goal2 cfg : ℚ) - ml) > 0)) ∧
    (pct = 30 → ml = (goal2 cfg : ℚ) →
      (handler2 cfg "POST" (some b) t st true).1 = .skipped "on_track_or_done") := by
  rw [handler2_gate cfg bt ch b ml pct t st true hbot hchat hml hpct hq hr]
  constructor
  · by_cases hd : ¬(ml + 50 < (target2 cfg t : ℚ) ∨ pct < 40) ∨ max 0 ((goal2 cfg : ℚ) - ml) ≤ 0
    · rw [if_pos hd]
      constructor
      · rintro ⟨g, tg, sp, h⟩
        simp at h
      · rintro ⟨h1, h2⟩
        rcases hd with h3 | h3
        · exact absurd h1 h3
        · exact absurd h2 (by simpa using h3)
    · rw [if_neg hd, if_pos rfl]
      push_neg at hd
      constructor
      · intro _
        exact ⟨hd.1, hd.2⟩
      · intro _
        exact ⟨_, _, _, rfl⟩
  · intro h30 hmg
    rw [if_pos (Or.inr (by rw [hmg]; simp))]

/-- Witness for C1: the "in particular" instance (`pct = 30`, `ml = goal_ml`). -/
theorem C1_decision_engine_witness :
    ¬(jdGetHours 71280000 ≥ cfgW.QUIET_START ∨ jdGetHours 71280000 < cfgW.QUIET_END) ∧
    (handler2 cfgW "POST" (some bodyT) 71280000 stEmpty true).1 = .skipped "on_track_or_done" :=
  ⟨by decide,
   (C1_decision_engine cfgW "bt" "chat" bodyT 3650 30 71280000 stEmpty
     rfl rfl rfl rfl (by decide) (by norm_num [stEmpty, cfgW])).2 rfl
     (by rw [goal2_cfgW]; norm_num)⟩

/-- C4: for every processable POST request, the response is skipped
`"quiet_hours"` iff the local hour satisfies
`hour ≥ quiet_start ∨ hour < quiet_end`, for every `NotificationState` and
send outcome (so the quiet gate precedes the cooldown check). -/
theorem C4_quiet_hours_gate (cfg : Config2) (bt ch : String) (b : Body) (ml pct : ℚ)
    (t : ℤ) (st : NState) (sendOk : Bool)
    (hbot : cfg.BOT_TOKEN = some bt) (hchat : cfg.CHAT_ID = some ch)
    (hml : b.ml = some ml) (hpct : b.pct = some pct) :
    (handler2 cfg "POST" (some b) t st sendOk).1 = .skipped "quiet_hours" ↔
      (jdGetHours t ≥ cfg.QUIET_START ∨ jdGetHours t < cfg.QUIET_END) := by
  by_cases hq : jdGetHours t ≥ cfg.QUIET_START ∨ jdGetHours t < cfg.QUIET_END
  · rw [handler2_quiet cfg b ml pct t st sendOk (by simp [hbot]) (by simp [hchat]) hml hpct hq]
    simpa using hq
  · constructor
    · intro hcontra
      by_cases hr : ((t - (st ch).getD 0 : ℤ) : ℚ) < cfg.MIN_INTERVAL_MIN * 60 * 1000
      · rw [handler2_rate cfg bt ch b ml pct t st sendOk hbot hchat hml hpct hq hr] at hcontra
        simp at hcontra
      · rw [handler2_gate cfg bt ch b ml pct t st sendOk hbot hchat hml hpct hq hr] at hcontra
        by_cases hd : ¬(ml + 50 < (target2 cfg t : ℚ) ∨ pct < 40) ∨
            max 0 ((goal2 cfg : ℚ) - ml) ≤ 0
        · rw [if_pos hd] at hcontra
          simp at hcontra
        · rw [if_neg hd] at hcontra
          by_cases hs : sendOk = true
          · rw [if_pos hs] at hcontra
            simp at hcontra
          · rw [if_neg hs] at hcontra
            simp at hcontra
    · intro h
      exact absurd h hq

/-- Witness for C4 at the default window (23/7): hours 23 and 6 skip,
hours 7 and 22 proceed; the state is arbitrary (here: empty). -/
theorem C4_quiet_hours_gate_witness :
    (handler2 cfgQ "POST" (some bodyQ) 82800000 stEmpty true).1 = .skipped "quiet_hours" ∧
    (handler2 cfgQ "POST" (some bodyQ) 21600000 stEmpty true).1 = .skipped "quiet_hours" ∧
    (handler2 cfgQ "POST" (some bodyQ) 25200000 stEmpty true).1 ≠ .skipped "quiet_hours" ∧
    (handler2 cfgQ "POST" (some bodyQ) 79200000 stEmpty true).1 ≠ .skipped "quiet_hours" := by
  refine ⟨?_, ?_, ?_, ?_⟩
  · exact (C4_quiet_hours_gate cfgQ "bt" "chat" bodyQ 0 100 82800000 stEmpty true
      rfl rfl rfl rfl).mpr (by decide)
  · exact (C4_quiet_hours_gate cfgQ "bt" "chat" bodyQ 0 100 21600000 stEmpty true
      rfl rfl rfl rfl).mpr (by decide)
  · intro h
    exact absurd ((C4_quiet_hours_gate cfgQ "bt" "chat" bodyQ 0 100 25200000 stEmpty true
      rfl rfl rfl rfl).mp h) (by decide)
  · intro h
    exact absurd ((C4_quiet_hours_gate cfgQ "bt" "chat" bodyQ 0 100 79200000 stEmpty true
      rfl rfl rfl rfl).mp h) (by decide)

/-- C5: (a) after a notifying call, a second valid call for the same
recipient less than `MIN_INTERVAL_MIN` minutes later and outside quiet hours
is skipped `"interval"` whatever its reading; (b) a `lastNotified` lookup miss
is treated as cooldown elapsed (the gate cannot fire once
`MIN_INTERVAL_MIN` minutes have passed since the epoch); (c) the
last-notified timestamp is written only by notifying invocations. -/
theorem C5_rate_gate :
    (∀ (cfg : Config2) (bt ch : String) (b1 : Body) (t1 : ℤ) (st : NState) (s1 : Bool)
        (g : ℚ) (tg sp : ℤ) (st1 : NState) (tr1 : List Event)
        (b2 : Body) (ml2 pct2 : ℚ) (t2 : ℤ) (s2 : Bool),
      cfg.BOT_TOKEN = some bt → cfg.CHAT_ID = some ch →
      handler2 cfg "POST" (some b1) t1 st s1 = (.notified g tg sp, st1, tr1) →
      b2.ml = some ml2 → b2.pct = some pct2 →
      ¬(jdGetHours t2 ≥ cfg.QUIET_START ∨ jdGetHours t2 < cfg.QUIET_END) →
      ((t2 - t1 : ℤ) : ℚ) < cfg.MIN_INTERVAL_MIN * 60 * 1000 →
      (handler2 cfg "POST" (some b2) t2 st1 s2).1 = .skipped "interval") ∧
    (∀ (cfg : Config2) (bt ch : String) (b : Body) (ml pct : ℚ) (t : ℤ) (st : NState) (s : Bool),
      cfg.BOT_TOKEN = some bt → cfg.CHAT_ID = some ch →
      b.ml = some ml → b.pct = some pct →
      st ch = none →
      cfg.MIN_INTERVAL_MIN * 60 * 1000 ≤ ((t : ℤ) : ℚ) →
      (handler2 cfg "POST" (some b) t st s).1 ≠ .skipped "interval") ∧
    (∀ (cfg : Config2) (method : String) (body : Option Body) (t : ℤ) (st : NState) (s : Bool),
      (∀ g tg sp, (handler2 cfg method body t st s).1 ≠ .notified g tg sp) →
      (handler2 cfg method body t st s).2.1 = st) := by
  refine ⟨?_, ?_, ?_⟩
  · intro cfg bt ch b1 t1 st s1 g tg sp st1 tr1 b2 ml2 pct2 t2 s2
      hbot hchat hE hml2 hpct2 hq2 hlt
    rcases handler2_cases cfg "POST" (some b1) t1 st s1 with
      ⟨_, _, hno⟩ | ⟨g', tg', sp', h1, h2, h3⟩
    · rw [hE] at hno
      exact absurd rfl (hno g tg sp)
    · rw [hE] at h2
      have hst1 : st1 ch = some t1 := by
        have := congrArg (fun f => f ch) h2
        simpa [hchat] using this
      rw [handler2_rate cfg bt ch b2 ml2 pct2 t2 st1 s2 hbot hchat hml2 hpct2 hq2
        (by rw [hst1]; simpa using hlt)]
  · intro cfg bt ch b ml pct t st s hbot hchat hml hpct hmiss hge
    by_cases hq : jdGetHours t ≥ cfg.QUIET_START ∨ jdGetHours t < cfg.QUIET_END
    · rw [handler2_quiet cfg b ml pct t st s (by simp [hbot]) (by simp [hchat]) hml hpct hq]
      simp
    · rw [handler2_gate cfg bt ch b ml pct t st s hbot hchat hml hpct hq
        (by rw [hmiss]; simpa using not_lt.mpr hge)]
      by_cases hd : ¬(ml + 50 < (target2 cfg t : ℚ) ∨ pct < 40) ∨
          max 0 ((goal2 cfg : ℚ) - ml) ≤ 0
      · rw [if_pos hd]; simp
      · rw [if_neg hd]
        by_cases hs : s = true
        · rw [if_pos hs]; simp
        · rw [if_neg hs]; simp
  · intro cfg method body t st s hno
    rcases handler2_cases cfg method body t st s with ⟨hkeep, _, _⟩ | ⟨g, tg, sp, h1, _, _⟩
    · exact hkeep
    · exact absurd h1 (hno g tg sp)

/-- Witness for C5: a notifying call at 19:48:00 followed by a call one
second later, which is rate-limited. -/
theorem C5_rate_gate_witness :
    handler2 cfgW "POST" (some bodyW) 71280000 stEmpty true =
      (.notified 3650 2920 300, stUpd, [.send "chat", .writeTs "chat" 71280000]) ∧
    (handler2 cfgW "POST" (some bodyW) 71281000 stUpd true).1 = .skipped "interval" :=
  ⟨handler2_cfgW_notify,
   C5_rate_gate.1 cfgW "bt" "chat" bodyW 71280000 stEmpty true 3650 2920 300 stUpd
     [.send "chat", .writeTs "chat" 71280000] bodyW 2020 50 71281000 true
     rfl rfl handler2_cfgW_notify rfl rfl (by decide) (by norm_num [cfgW])⟩

/-- C6: a notifying response carries
`next_sip_ml = clamp (round (max 0 (target_ml_now - ml) / 3)) baseMin baseMax`
for the request's `ml`, with the (baseMin, baseMax) table
(200, 300) Heavy / (180, 250) Moderate / (150, 220) Light and Sedentary. -/
theorem C6_sip_sizing (cfg : Config2) (method : String) (body : Option Body) (t : ℤ)
    (st : NState) (sendOk : Bool) (g : ℚ) (tg sp : ℤ)
    (hE : (handler2 cfg method body t st sendOk).1 = .notified g tg sp) :
    (∃ b ml pct, body = some b ∧ b.ml = some ml ∧ b.pct = some pct ∧
      sp = clamp (jsRound (max 0 ((tg : ℚ) - ml) / 3))
        (baseMin cfg.ACTIVITY_LEVEL) (baseMax cfg.ACTIVITY_LEVEL) ∧
      tg = target2 cfg t) ∧
    baseMin "Heavy" = 200 ∧ baseMax "Heavy" = 300 ∧
    baseMin "Moderate" = 180 ∧ baseMax "Moderate" = 250 ∧
    baseMin "Light" = 150 ∧ baseMax "Light" = 220 ∧
    baseMin "Sedentary" = 150 ∧ baseMax "Sedentary" = 220 := by
  obtain ⟨b, ml, pct, hb, hml, hpct, hg, htg, hsp⟩ :=
    handler2_notified_inv cfg method body t st sendOk g tg sp hE
  refine ⟨⟨b, ml, pct, hb, hml, hpct, ?_, htg⟩, by decide, by decide, by decide, by decide,
    by decide, by decide, by decide, by decide⟩
  rw [hsp, sip2, htg]

/-- Witness for C6: Heavy activity, gap 900, sip hits the 300 upper bound. -/
theorem C6_sip_sizing_witness :
    (handler2 cfgW "POST" (some bodyW) 71280000 stEmpty true).1 = .notified 3650 2920 300 ∧
    (∃ b ml pct, some bodyW = some b ∧ b.ml = some ml ∧ b.pct = some pct ∧
      (300 : ℤ) = clamp (jsRound (max 0 (((2920 : ℤ) : ℚ) - ml) / 3))
        (baseMin cfgW.ACTIVITY_LEVEL) (baseMax cfgW.ACTIVITY_LEVEL) ∧
      (2920 : ℤ) = target2 cfgW 71280000) :=
  ⟨by rw [handler2_cfgW_notify],
   (C6_sip_sizing cfgW "POST" (some bodyW) 71280000 stEmpty true 3650 2920 300
     (by rw [handler2_cfgW_notify])).1⟩

/-! ## Branch lemmas for the variant 1 handler, claims C9 and C10 -/

lemma handler1_cases (envChat envBot : Option String) (method : String) (body : Option Body1)
    (t : ℤ) (st : NState) (sendOk : Bool) :
    ((handler1 envChat envBot method body t st sendOk).2.1 = st ∧
      (∀ c ts, Event.writeTs c ts ∉ (handler1 envChat envBot method body t st sendOk).2.2) ∧
      ∀ g tg sp, (handler1 envChat envBot method body t st sendOk).1 ≠ .notified g tg sp) ∨
    (∃ g tg sp, (handler1 envChat envBot method body t st sendOk).1 = .notified g tg sp ∧
      (handler1 envChat envBot method body t st sendOk).2.1 =
        (fun k => if k = envChat.getD "" then some t else st k) ∧
      (handler1 envChat envBot method body t st sendOk).2.2 =
        [.send (envChat.getD ""), .writeTs (envChat.getD "") t]) := by
  rcases hE : handler1 envChat envBot method body t st sendOk with ⟨r, st2, tr⟩
  simp only [hE]
  unfold handler1 at hE
  split at hE
  · cases hE; simp
  · split at hE
    · cases hE; simp
    · split at hE
      · split at hE
        · cases hE; simp
        · split at hE
          · cases hE; simp
          · split at hE
            · cases hE; simp
            · split at hE
              · cases hE; simp
              · split at hE
                · cases hE
                  right
                  exact ⟨_, _, _, rfl, rfl, rfl⟩
                · cases hE; simp
      · cases hE; simp

lemma handler1_notified_inv (envChat envBot : Option String) (method : String)
    (body : Option Body1) (t : ℤ) (st : NState) (sendOk : Bool) (g : ℚ) (tg sp : ℤ)
    (hE : (handler1 envChat envBot method body t st sendOk).1 = .notified g tg sp) :
    ∃ b ml pct, body = some b ∧ b.ml = some ml ∧ b.pct = some pct ∧
      g = goal1 (b.profile.getD {}) t ∧ tg = target1 (b.profile.getD {}) t ∧
      sp = sip1 (b.profile.getD {}) t ml ∧
      (ml + 50 < (target1 (b.profile.getD {}) t : ℚ) ∨ pct < 40) ∧
      ¬(max 0 (goal1 (b.profile.getD {}) t - ml) ≤ 0) := by
  rcases hF : handler1 envChat envBot method body t st sendOk with ⟨r, st2, tr⟩
  rw [hF] at hE
  simp only [] at hE
  subst hE
  unfold handler1 at hF
  split at hF
  · cases hF
  · split at hF
    · cases hF
    · rename_i b
      split at hF
      · rename_i ml pct hml hpct
        split at hF
        · cases hF
        · split at hF
          · cases hF
          · split at hF
            · cases hF
            · split at hF
              · cases hF
              · rename_i hdec
                split at hF
                · cases hF
                  push_neg at hdec
                  exact ⟨b, ml, pct, rfl, hml, hpct, rfl, rfl, rfl, hdec.1,
                    by simpa using hdec.2⟩
                · cases hF
      · cases hF


lemma handler1_gate (bt ch : String) (b : Body1) (ml pct : ℚ) (t : ℤ)
    (st : NState) (sendOk : Bool)
    (hml : b.ml = some ml) (hpct : b.pct = some pct)
    (hq : ¬(jdGetHours t ≥ 23 ∨ jdGetHours t < 7))
    (hr : ¬(((t - (st ch).getD 0 : ℤ) : ℚ) < 30 * 60 * 1000)) :
    handler1 (some ch) (some bt) "POST" (some b) t st sendOk =
      if ¬(ml + 50 < (target1 (b.profile.getD {}) t : ℚ) ∨ pct < 40) ∨
          max 0 (goal1 (b.profile.getD {}) t - ml) ≤ 0 then
        (.skipped "on_track_or_done", st, [])
      else if sendOk then
        (.notified (goal1 (b.profile.getD {}) t) (target1 (b.profile.getD {}) t)
           (sip1 (b.profile.getD {}) t ml),
         fun k => if k = ch then some t else st k, [.send ch, .writeTs ch t])
      else (.serverError, st, [.send ch]) := by
  unfold handler1
  rw [if_neg (by simp)]
  simp only [hml, hpct, Option.isNone_some, Bool.or_self, Bool.false_eq_true, if_false,
    Option.getD_some]
  rw [if_neg hq]
  rw [if_neg hr]

lemma ctx1_empty : ctx1 {} 43200000 =
    { name := "friend", age := none, weight_kg := 60, activity_level := "Light",
      daily_activity_minutes := 30, medical_conditions := [], clinician_limit_ml := none,
      temp_c := none, humidity_pct := none, wake := 25200000, sleep := 82800000 } := rfl

lemma nowAfterCtx_empty : nowAfterCtx {} 43200000 = 25200000 := rfl

lemma goal1_empty : goal1 {} 43200000 = 2300 := by
  have ha : activityAdd "Light" = 200 := by decide
  rw [goal1, ctx1_empty]
  norm_num [computeGoalMl, jsRound, clamp, ha, envAddCond, max_def, min_def]

lemma target1_empty : target1 {} 43200000 = 0 := by
  rw [target1, ctx1_empty, nowAfterCtx_empty, goal1_empty]
  norm_num [computeSchedule, fractionAt, jsRound]

lemma sip1_empty : sip1 {} 43200000 100 = 150 := by
  have h1 : baseMin "Light" = 150 := by decide
  have h2 : baseMax "Light" = 220 := by decide
  rw [sip1, target1_empty, ctx1_empty]
  norm_num [jsRound, clamp, max_def, min_def, h1, h2]

lemma handler1_notify_eval :
    handler1 (some "chat") (some "bt") "POST" (some bodyP) 43200000 stEmpty true =
      (.notified 2300 0 150, fun k => if k = "chat" then some 43200000 else stEmpty k,
       [.send "chat", .writeTs "chat" 43200000]) := by
  rw [handler1_gate "bt" "chat" bodyP 100 30 43200000 stEmpty true rfl rfl
    (by decide) (by norm_num [stEmpty])]
  have hprof : bodyP.profile.getD {} = {} := rfl
  rw [hprof, target1_empty, goal1_empty, sip1_empty]
  rw [if_neg (by norm_num), if_pos rfl]


/-- C9: the `lastNotified` entry for the recipient is written only by
invocations that issue the outbound send (response notified), with the write
event after the send event in the trace; every other outcome — 405, 400, 500
(including a send failure), or any skipped response — leaves the map
unchanged and emits no write event. -/
theorem C9_state_write (envChat envBot : Option String) (method : String) (body : Option Body1)
    (t : ℤ) (st : NState) (sendOk : Bool) :
    ((∀ g tg sp, (handler1 envChat envBot method body t st sendOk).1 ≠ .notified g tg sp) →
      (handler1 envChat envBot method body t st sendOk).2.1 = st ∧
      ∀ c ts, Event.writeTs c ts ∉ (handler1 envChat envBot method body t st sendOk).2.2) ∧
    (∀ g tg sp, (handler1 envChat envBot method body t st sendOk).1 = .notified g tg sp →
      (handler1 envChat envBot method body t st sendOk).2.1 =
        (fun k => if k = envChat.getD "" then some t else st k) ∧
      (handler1 envChat envBot method body t st sendOk).2.2 =
        [.send (envChat.getD ""), .writeTs (envChat.getD "") t]) := by
  rcases handler1_cases envChat envBot method body t st sendOk with
    ⟨h1, h2, h3⟩ | ⟨g, tg, sp, h1, h2, h3⟩
  · exact ⟨fun _ => ⟨h1, h2⟩, fun g tg sp hE => absurd hE (h3 g tg sp)⟩
  · refine ⟨fun hno => absurd h1 (hno g tg sp), fun g' tg' sp' _ => ⟨h2, h3⟩⟩

lemma handler1_get_eval :
    handler1 (some "chat") (some "bt") "GET" (some bodyP) 0 stEmpty true =
      (.methodNotAllowed, stEmpty, []) := rfl

/-- Witness for C9. -/
theorem C9_state_write_witness :
    (handler1 (some "chat") (some "bt") "GET" (some bodyP) 0 stEmpty true).2.1 = stEmpty ∧
    (handler1 (some "chat") (some "bt") "POST" (some bodyP) 43200000 stEmpty true).2.1 =
      (fun k => if k = (some "chat").getD "" then some 43200000 else stEmpty k) :=
  ⟨((C9_state_write (some "chat") (some "bt") "GET" (some bodyP) 0 stEmpty true).1
      (by intro g tg sp h; rw [handler1_get_eval] at h; simp at h)).1,
   ((C9_state_write (some "chat") (some "bt") "POST" (some bodyP) 43200000 stEmpty true).2
      2300 0 150 (by rw [handler1_notify_eval])).1⟩

/-- C10: in the profile-in-request handler variant, when the profile lacks a
valid "HH:MM" wake_time string, `computeContext` mutates the shared `now`
object to 07:00:00.000 of the current day; consequently `fractionAt` is
evaluated at the wake instant, `target_ml_now` is 0, `behind` is false for a
nonnegative reading, and a notification can only be triggered by `pct < 40`. -/
theorem C10_wake_mutation (b : Body1) (ml pct : ℚ) (t : ℤ)
    (hml : b.ml = some ml) (hpct : b.pct = some pct) (hml0 : 0 ≤ ml)
    (hwake : parseHM1 (b.profile.getD {}).wake_time t = none) :
    nowAfterCtx (b.profile.getD {}) t = jdSetHours t 7 0 ∧
    (ctx1 (b.profile.getD {}) t).wake = jdSetHours t 7 0 ∧
    target1 (b.profile.getD {}) t = 0 ∧
    ¬(ml + 50 < (target1 (b.profile.getD {}) t : ℚ)) ∧
    (∀ envChat envBot st sendOk g tg sp,
      (handler1 envChat envBot "POST" (some b) t st sendOk).1 = .notified g tg sp →
      pct < 40) := by
  have h1 : nowAfterCtx (b.profile.getD {}) t = jdSetHours t 7 0 := by
    simp only [nowAfterCtx, computeContext, hwake]
  have h2 : (ctx1 (b.profile.getD {}) t).wake = jdSetHours t 7 0 := by
    simp only [ctx1, computeContext, hwake, Option.getD_none]
  have h3 : target1 (b.profile.getD {}) t = 0 := by
    rw [target1, computeSchedule, h1, h2, fractionAt]
    rw [if_pos (le_refl _)]
    norm_num [jsRound]
  have h4 : ¬(ml + 50 < (target1 (b.profile.getD {}) t : ℚ)) := by
    rw [h3]
    push_cast
    intro hcontra
    linarith
  refine ⟨h1, h2, h3, h4, ?_⟩
  intro envChat envBot st sendOk g tg sp hE
  obtain ⟨b', ml', pct', hbeq, hml', hpct', _, _, _, hdisj, _⟩ :=
    handler1_notified_inv envChat envBot "POST" (some b) t st sendOk g tg sp hE
  have hb : b' = b := (Option.some.inj hbeq).symm
  subst hb
  have hmleq : ml' = ml := by rw [hml] at hml'; exact (Option.some.inj hml').symm
  have hpcteq : pct' = pct := by rw [hpct] at hpct'; exact (Option.some.inj hpct').symm
  subst hmleq hpcteq
  rcases hdisj with hbehind | hlow
  · exact absurd hbehind h4
  · exact hlow

/-- Witness for C10. -/
theorem C10_wake_mutation_witness :
    bodyP.ml = some 100 ∧ (0 : ℚ) ≤ 100 ∧
    parseHM1 (bodyP.profile.getD {}).wake_time 43200000 = none ∧
    target1 (bodyP.profile.getD {}) 43200000 = 0 :=
  ⟨rfl, by norm_num, rfl,
   (C10_wake_mutation bodyP 100 30 43200000 rfl rfl (by norm_num) rfl).2.2.1⟩

/-! ## Claim C2: the goal formula -/

lemma computeGoalMl_ctxNeg : computeGoalMl ctxNeg = 3500 := by
  have ha : activityAdd "Heavy" = 600 := by decide
  norm_num [computeGoalMl, ctxNeg, jsRound, clamp, ha, envAddCond, max_def, min_def]

lemma claimGoalMl_ctxNeg : claimGoalMl ctxNeg = 2300 := by
  have ha : specActivityAdd "Heavy" = 600 := by decide
  norm_num [claimGoalMl, ctxNeg, jsRound, clamp, ha, envAddCond, max_def, min_def]

/-- C2 counterexample: at weight 100 kg, Heavy, activity_minutes = -60, the
code (which clamps the block count below at 0) yields 3500 while the claim's
formula `clamp(round(35×w) + round(minutes/30)×table, 1200, 4000)` yields
2300, so the claim as stated is false. -/
theorem C2_goal_formula_counterexample : computeGoalMl ctxNeg ≠ claimGoalMl ctxNeg := by
  rw [computeGoalMl_ctxNeg, claimGoalMl_ctxNeg]
  norm_num

/-- C2 (amended): for a context whose activity_level is one of the four enum
values and whose activity minutes are nonnegative, `computeGoalMl` equals the
claim's formula `clamp(round(35 × weight_kg) + round(minutes/30) × table
(+300 when hot/humid; clinician cap, else 2000 soft cap for ckd/hf), 1200,
4000)`; in particular 70 kg/Moderate/60 min gives 3250 and 10 kg/Sedentary
gives 1200 (floor). -/
theorem C2_goal_formula (ctx : Ctx) (hmin : 0 ≤ ctx.daily_activity_minutes)
    (hact : ctx.activity_level = "Sedentary" ∨ ctx.activity_level = "Light" ∨
      ctx.activity_level = "Moderate" ∨ ctx.activity_level = "Heavy") :
    computeGoalMl ctx = claimGoalMl ctx ∧
    computeGoalMl ctx70 = 3250 ∧ computeGoalMl ctx10 = 1200 := by
  have htab : activityAdd ctx.activity_level = specActivityAdd ctx.activity_level := by
    rcases hact with h | h | h | h <;> rw [h] <;> decide
  have hblocks : max (0 : ℤ) (jsRound (ctx.daily_activity_minutes / 30)) =
      jsRound (ctx.daily_activity_minutes / 30) := by
    apply max_eq_right
    rw [jsRound]
    apply Int.le_floor.mpr
    have h30 : (0 : ℚ) ≤ ctx.daily_activity_minutes / 30 := by positivity
    push_cast
    linarith
  refine ⟨?_, ?_, ?_⟩
  · rw [computeGoalMl, claimGoalMl, htab, hblocks]
    rcases hcl : ctx.clinician_limit_ml with _ | l
    · simp only [hcl, Option.isNone_none, Bool.and_true]
    · simp only [hcl, Option.isNone_some, Bool.and_false, Bool.false_eq_true, if_false]
  · have ha : activityAdd "Moderate" = 400 := by decide
    norm_num [computeGoalMl, ctx70, jsRound, clamp, ha, envAddCond, max_def, min_def]
  · have ha : activityAdd "Sedentary" = 0 := by decide
    norm_num [computeGoalMl, ctx10, jsRound, clamp, ha, envAddCond, max_def, min_def]

/-- Witness for C2 at the 70 kg / Moderate / 60 min context. -/
theorem C2_goal_formula_witness :
    (0 : ℚ) ≤ ctx70.daily_activity_minutes ∧
    (computeGoalMl ctx70 = claimGoalMl ctx70 ∧
     computeGoalMl ctx70 = 3250 ∧ computeGoalMl ctx10 = 1200) :=
  ⟨by norm_num [ctx70],
   C2_goal_formula ctx70 (by norm_num [ctx70]) (Or.inr (Or.inr (Or.inl rfl)))⟩

/-! ## Claim C7: activity normalization -/

/-- C7 (amended): `normalizeActivity` always resolves free text to one of the
four enum values, by case-insensitive substring match with priority exact
enum word over intensity keywords (run/gym/match/intense/cycle to Heavy;
walk/jog/yoga/swim to Moderate) over the default Light — the instances show
each priority tier. -/
theorem C7_activity_normalization :
    (∀ s, normalizeActivity s = "Sedentary" ∨ normalizeActivity s = "Light" ∨
      normalizeActivity s = "Moderate" ∨ normalizeActivity s = "Heavy") ∧
    normalizeActivity "Gym day" = "Heavy" ∧
    normalizeActivity "yoga" = "Moderate" ∧
    normalizeActivity "light jog" = "Light" ∧
    normalizeActivity "unknown" = "Light" := by
  refine ⟨?_, by decide, by decide, by decide, by decide⟩
  intro s
  simp only [normalizeActivity]
  split_ifs <;> simp

/-- C7 counterexample: the profile-in-request variant's `computeContext` does
not normalize free text, so a profile with activity "gym" reaches downstream
computation with `activity_level = "gym"`, which is none of the four enum
values — refuting the claim that every decision cycle resolves the activity. -/
theorem C7_activity_counterexample :
    (ctx1 profGym 43200000).activity_level = "gym" ∧
    ¬((ctx1 profGym 43200000).activity_level = "Sedentary" ∨
      (ctx1 profGym 43200000).activity_level = "Light" ∨
      (ctx1 profGym 43200000).activity_level = "Moderate" ∨
      (ctx1 profGym 43200000).activity_level = "Heavy") :=
  ⟨rfl, by decide⟩

/-! ## Claim C8: AI sanitization and fallback -/

lemma handler3_quiet (cfg : Config3) (b : Body) (ml pct : ℚ) (t : ℤ)
    (st : NState) (sendOk hasKey : Bool) (ai : AiResp)
    (hbot : cfg.BOT_TOKEN.isNone = false) (hchat : cfg.CHAT_ID.isNone = false)
    (hml : b.ml = some ml) (hpct : b.pct = some pct)
    (hq : jdGetHours t ≥ cfg.QUIET_START ∨ jdGetHours t < cfg.QUIET_END) :
    handler3 cfg "POST" (some b) t st sendOk hasKey ai =
      (.skipped "quiet_hours" none, st, []) := by
  unfold handler3
  rw [if_neg (by simp)]
  simp only [hbot, hchat, Bool.or_self, Bool.false_eq_true, if_false, hml, hpct]
  rw [if_pos hq]

lemma handler3_rate (cfg : Config3) (bt ch : String) (b : Body) (ml pct : ℚ) (t : ℤ)
    (st : NState) (sendOk hasKey : Bool) (ai : AiResp)
    (hbot : cfg.BOT_TOKEN = some bt) (hchat : cfg.CHAT_ID = some ch)
    (hml : b.ml = some ml) (hpct : b.pct = some pct)
    (hq : ¬(jdGetHours t ≥ cfg.QUIET_START ∨ jdGetHours t < cfg.QUIET_END))
    (hr : ((t - (st ch).getD 0 : ℤ) : ℚ) < cfg.MIN_INTERVAL_MIN * 60 * 1000) :
    handler3 cfg "POST" (some b) t st sendOk hasKey ai =
      (.skipped "interval" none, st, []) := by
  unfold handler3
  rw [if_neg (by simp)]
  rw [hbot, hchat]
  simp only [Option.isNone_some, Bool.or_self, Bool.false_eq_true, if_false, hml, hpct]
  rw [if_neg hq]
  simp only [Option.getD_some]
  rw [if_pos hr]

lemma handler3_gate (cfg : Config3) (bt ch : String) (b : Body) (ml pct : ℚ) (t : ℤ)
    (st : NState) (sendOk hasKey : Bool) (ai : AiResp)
    (hbot : cfg.BOT_TOKEN = some bt) (hchat : cfg.CHAT_ID = some ch)
    (hml : b.ml = some ml) (hpct : b.pct = some pct)
    (hq : ¬(jdGetHours t ≥ cfg.QUIET_START ∨ jdGetHours t < cfg.QUIET_END))
    (hr : ¬(((t - (st ch).getD 0 : ℤ) : ℚ) < cfg.MIN_INTERVAL_MIN * 60 * 1000)) :
    handler3 cfg "POST" (some b) t st sendOk hasKey ai =
      if (plan3 cfg hasKey ai ml pct t).should_notify = false ∨
          jsLeN (jsMaxN (.num 0) (jsSubN (plan3 cfg hasKey ai ml pct t).goal_ml ml)) 0
            = true then
        (.skipped "on_track_or_done" (some (plan3 cfg hasKey ai ml pct t)), st, [])
      else if sendOk then
        (.notified (plan3 cfg hasKey ai ml pct t),
         fun k => if k = ch then some t else st k, [.send ch, .writeTs ch t])
      else (.serverError, st, [.send ch]) := by
  unfold handler3
  rw [if_neg (by simp)]
  rw [hbot, hchat]
  simp only [Option.isNone_some, Bool.or_self, Bool.false_eq_true, if_false, hml, hpct]
  rw [if_neg hq]
  simp only [Option.getD_some]
  rw [if_neg hr]

lemma sanitize_field (f : AiField) (lo hi : ℚ) (hlohi : lo ≤ hi) (hf : f ≠ .nonNumeric) :
    ∃ g : ℚ, clampN (jsRoundN f.toNumber) (.num lo) (.num hi) = .num g ∧
      lo ≤ g ∧ g ≤ hi := by
  rcases f with _ | q | _
  · exact ⟨max lo (min ((jsRound 0 : ℤ) : ℚ) hi), rfl, le_max_left _ _,
      max_le hlohi (min_le_right _ _)⟩
  · exact ⟨max lo (min ((jsRound q : ℤ) : ℚ) hi), rfl, le_max_left _ _,
      max_le hlohi (min_le_right _ _)⟩
  · exact absurd rfl hf

lemma aiPlan_default : aiPlan (.parsed {}) = .ok planDefault := by
  have htake : ("" : String).take 140 = "" := by rw [String.take_eq]; rfl
  simp only [aiPlan, planDefault, AiField.toNumber, jsRoundN, clampN, jsMinN, jsMaxN,
    Option.getD_none]
  norm_num [jsRound, max_def, min_def, htake]

lemma aiPlan_dNaN : aiPlan (.parsed dNaN) = .ok planNaN := by
  have htake : ("" : String).take 140 = "" := by rw [String.take_eq]; rfl
  simp only [aiPlan, dNaN, planNaN, AiField.toNumber, jsRoundN, clampN, jsMinN, jsMaxN,
    Option.getD_none]
  norm_num [jsRound, max_def, min_def, htake]

lemma plan3_missing_fields (cfg : Config3) (ml pct : ℚ) (t : ℤ) :
    plan3 cfg true (.parsed {}) ml pct t = planDefault := by
  simp [plan3, aiPlan_default]

lemma fallbackPlan_cfgA : fallbackPlan 70 "Moderate" 100 30 43200000 = planFB := by
  have h1 : parseHM2 "07:00" 7 0 43200000 = 25200000 := by decide
  have h2 : parseHM2 "23:00" 7 0 43200000 = 82800000 := by decide
  have h3 : fallbackFrac 25200000 82800000 43200000 = 175/528 := by
    norm_num [fallbackFrac, tMorningEnd, tAfternoonEnd, jsTrunc]
  have hf : flatActivityAdd "Moderate" = 800 := by decide
  simp only [fallbackPlan, h1, h2, h3, hf, planFB]
  norm_num [jsRound, clamp, max_def, min_def]

lemma plan3_nokey :
    plan3 cfgA false (.parsed {}) 100 30 43200000 = planFB := by
  have hday : normalizeActivity (dayActivityOf cfgA (jdGetDay 43200000)) = "Moderate" := by
    decide
  have hw : cfgA.WEIGHT_KG = 70 := rfl
  simp only [plan3, Bool.false_eq_true, if_false]
  rw [hday, hw, fallbackPlan_cfgA]

/-- C8 counterexample: the claim as stated is false on two of its failure
modes.  A *parsed* response with missing fields does not trigger the
rule-based fallback: at the same reading (ml 100, pct 30, noon) the handler
given the parsed empty object skips "on_track_or_done" with the sanitized
AI plan (goal 800, notify false), while the rule-based path notifies with
the fallback plan (goal 3250, sip 250) — so the fallback demonstrably does
not execute there.  And a present non-numeric goal field survives
sanitization as NaN, escaping the claimed [800, 6000] clamp. -/
theorem C8_ai_fallback_counterexample :
    (handler3 cfgA "POST" (some bodyF) 43200000 stEmpty true true (.parsed {})).1 =
      .skipped "on_track_or_done" (some planDefault) ∧
    (handler3 cfgA "POST" (some bodyF) 43200000 stEmpty true false (.parsed {})).1 =
      .notified planFB ∧
    planDefault ≠ planFB ∧
    aiPlan (.parsed dNaN) = .ok planNaN ∧
    planNaN.goal_ml = .nan := by
  refine ⟨?_, ?_, ?_, aiPlan_dNaN, rfl⟩
  · rw [handler3_gate cfgA "bt" "chat" bodyF 100 30 43200000 stEmpty true true (.parsed {})
      rfl rfl rfl rfl (by decide) (by norm_num [stEmpty, cfgA])]
    rw [plan3_missing_fields]
    have hc : planDefault.should_notify = false ∨
        jsLeN (jsMaxN (.num 0) (jsSubN planDefault.goal_ml 100)) 0 = true := Or.inl rfl
    rw [if_pos hc]
  · rw [handler3_gate cfgA "bt" "chat" bodyF 100 30 43200000 stEmpty true false (.parsed {})
      rfl rfl rfl rfl (by decide) (by norm_num [stEmpty, cfgA])]
    rw [plan3_nokey]
    rw [if_neg (by norm_num [planFB, jsSubN, jsMaxN, jsLeN, max_def]), if_pos rfl]
  · intro h
    have := congrArg Plan.should_notify h
    simp [planDefault, planFB] at this

/-- C8 (amended): in the AI-planner variants, a *parsed* text-generation
response is sanitized before use — for each numeric field that is missing
(defaulted to 0 by `x || 0`) or numeric: goal clamped to [800, 6000], target
to [0, goal], sip to [120, 300]; the notify flag is a boolean after the `!!`
coercion and the reason is truncated to 140 characters; a present
non-numeric field instead yields NaN, which passes through the clamps.  The
rule-based fallback executes exactly on thrown failures — no response
content, or content `JSON.parse` rejects — behaving as if no API key were
set, with no error surfaced; a parsed response with missing fields is *not*
a fallback trigger.  No AI outcome yields a 500 on a valid request whose
send succeeds. -/
theorem C8_ai_sanitize_fallback :
    (∀ (d : AiData) (p : Plan), aiPlan (.parsed d) = .ok p →
      p.reason.length ≤ 140 ∧
      (d.daily_goal_ml ≠ .nonNumeric →
        ∃ g : ℚ, p.goal_ml = .num g ∧ 800 ≤ g ∧ g ≤ 6000) ∧
      (d.daily_goal_ml ≠ .nonNumeric → d.target_ml_by_now ≠ .nonNumeric →
        ∃ g tg : ℚ, p.goal_ml = .num g ∧ p.target_ml_now = .num tg ∧ 0 ≤ tg ∧ tg ≤ g) ∧
      (d.next_sip_ml ≠ .nonNumeric →
        ∃ sp : ℚ, p.next_sip_ml = .num sp ∧ 120 ≤ sp ∧ sp ≤ 300) ∧
      (d.daily_goal_ml = .nonNumeric → p.goal_ml = .nan)) ∧
    (∀ (ai : AiResp), (ai = .noOutput ∨ ai = .unparseable) →
      ∀ (cfg : Config3) (method : String) (body : Option Body) (t : ℤ)
        (st : NState) (sendOk : Bool),
        handler3 cfg method body t st sendOk true ai =
          handler3 cfg method body t st sendOk false ai) ∧
    (∀ (cfg : Config3) (bt ch : String) (b : Body) (ml pct : ℚ) (t : ℤ)
        (st : NState) (hasKey : Bool) (ai : AiResp),
      cfg.BOT_TOKEN = some bt → cfg.CHAT_ID = some ch →
      b.ml = some ml → b.pct = some pct →
      (handler3 cfg "POST" (some b) t st true hasKey ai).1 ≠ .serverError) := by
  refine ⟨?_, ?_, ?_⟩
  · intro d p hp
    simp only [aiPlan, Except.ok.injEq] at hp
    subst hp
    refine ⟨?_, ?_, ?_, ?_, ?_⟩
    · rw [String.take_eq]
      show (((d.short_reason.getD "").data.take 140)).length ≤ 140
      rw [List.length_take]
      exact min_le_left _ _
    · intro hg
      exact sanitize_field d.daily_goal_ml 800 6000 (by norm_num) hg
    · intro hg ht
      obtain ⟨g, hgeq, hg1, hg2⟩ := sanitize_field d.daily_goal_ml 800 6000 (by norm_num) hg
      obtain ⟨tg, hteq, ht1, ht2⟩ :=
        sanitize_field d.target_ml_by_now 0 g (by linarith) ht
      refine ⟨g, tg, hgeq, ?_, ht1, ht2⟩
      show clampN (jsRoundN d.target_ml_by_now.toNumber) (.num 0)
        (clampN (jsRoundN d.daily_goal_ml.toNumber) (.num 800) (.num 6000)) = .num tg
      rw [hgeq]
      exact hteq
    · intro hs
      exact sanitize_field d.next_sip_ml 120 300 (by norm_num) hs
    · intro hg
      show clampN (jsRoundN d.daily_goal_ml.toNumber) (.num 800) (.num 6000) = .nan
      rw [hg]
      rfl
  · intro ai hai cfg method body t st sendOk
    have hplan : ∀ ml pct, plan3 cfg true ai ml pct t = plan3 cfg false ai ml pct t := by
      intro ml pct
      rcases hai with h | h <;> subst h <;> simp [plan3, aiPlan]
    unfold handler3
    simp only [hplan]
  · intro cfg bt ch b ml pct t st hasKey ai hbot hchat hml hpct
    by_cases hq : jdGetHours t ≥ cfg.QUIET_START ∨ jdGetHours t < cfg.QUIET_END
    · rw [handler3_quiet cfg b ml pct t st true hasKey ai (by simp [hbot]) (by simp [hchat])
        hml hpct hq]
      simp
    · by_cases hr : ((t - (st ch).getD 0 : ℤ) : ℚ) < cfg.MIN_INTERVAL_MIN * 60 * 1000
      · rw [handler3_rate cfg bt ch b ml pct t st true hasKey ai hbot hchat hml hpct hq hr]
        simp
      · rw [handler3_gate cfg bt ch b ml pct t st true hasKey ai hbot hchat hml hpct hq hr]
        by_cases hd : (plan3 cfg hasKey ai ml pct t).should_notify = false ∨
            jsLeN (jsMaxN (.num 0) (jsSubN (plan3 cfg hasKey ai ml pct t).goal_ml ml)) 0
              = true
        · rw [if_pos hd]; simp
        · rw [if_neg hd, if_pos rfl]; simp

/-- Witness for C8: the all-fields-missing response sanitizes to the
(800, 0, 120) plan within all claimed bounds, and a thrown AI failure
reproduces the no-key (rule-based) behaviour. -/
theorem C8_ai_sanitize_fallback_witness :
    aiPlan (.parsed {}) = .ok planDefault ∧
    (planDefault.reason.length ≤ 140 ∧
      (∃ g : ℚ, planDefault.goal_ml = .num g ∧ 800 ≤ g ∧ g ≤ 6000) ∧
      (∃ sp : ℚ, planDefault.next_sip_ml = .num sp ∧ 120 ≤ sp ∧ sp ≤ 300)) ∧
    handler3 cfgA "POST" (some bodyQ) 43200000 stEmpty true true .noOutput =
      handler3 cfgA "POST" (some bodyQ) 43200000 stEmpty true false .noOutput :=
  ⟨aiPlan_default,
   ⟨(C8_ai_sanitize_fallback.1 {} planDefault aiPlan_default).1,
    (C8_ai_sanitize_fallback.1 {} planDefault aiPlan_default).2.1 (by decide),
    (C8_ai_sanitize_fallback.1 {} planDefault aiPlan_default).2.2.2.1 (by decide)⟩,
   C8_ai_sanitize_fallback.2.1 .noOutput (Or.inl rfl) cfgA "POST" (some bodyQ) 43200000
     stEmpty true⟩

/-! ## Claim C3: the pacing schedule contract -/

lemma schedMorning_nonneg (act : String) : 0 ≤ schedMorning act := by
  unfold schedMorning
  split_ifs <;> norm_num

lemma schedAfternoon_nonneg (act : String) : 0 ≤ schedAfternoon act := by
  unfold schedAfternoon
  split_ifs <;> norm_num

lemma schedSum (act : String) : schedMorning act + schedAfternoon act = 4/5 := by
  unfold schedMorning schedAfternoon
  split_ifs <;> norm_num

lemma frac_zero (act : String) {W S u : ℤ} (hu : u ≤ W) : fractionAt act W S u = 0 := by
  unfold fractionAt
  rw [if_pos hu]

lemma frac_one (act : String) {W S u : ℤ} (h1 : ¬u ≤ W) (hu : S ≤ u) :
    fractionAt act W S u = 1 := by
  unfold fractionAt
  rw [if_neg h1, if_pos hu]

lemma fractionAt_nonneg (act : String) (W S u : ℤ) : 0 ≤ fractionAt act W S u := by
  have hm := schedMorning_nonneg act
  have ha := schedAfternoon_nonneg act
  have hsum := schedSum act
  unfold fractionAt
  split_ifs with h1 h2 h3 h4
  · norm_num
  · norm_num
  · have hd : (0 : ℚ) < ((tMorningEnd W S - W : ℤ) : ℚ) := by
      have : (0 : ℤ) < tMorningEnd W S - W := by omega
      exact_mod_cast this
    have hn : (0 : ℚ) ≤ ((u - W : ℤ) : ℚ) := by
      have : (0 : ℤ) ≤ u - W := by omega
      exact_mod_cast this
    exact mul_nonneg (div_nonneg hn hd.le) hm
  · have hd : (0 : ℚ) < ((tAfternoonEnd W S - tMorningEnd W S : ℤ) : ℚ) := by
      have : (0 : ℤ) < tAfternoonEnd W S - tMorningEnd W S := by omega
      exact_mod_cast this
    have hn : (0 : ℚ) ≤ ((u - tMorningEnd W S : ℤ) : ℚ) := by
      have : (0 : ℤ) ≤ u - tMorningEnd W S := by omega
      exact_mod_cast this
    exact add_nonneg hm (mul_nonneg (div_nonneg hn hd.le) ha)
  · have hd : (0 : ℚ) < ((S - tAfternoonEnd W S : ℤ) : ℚ) := by
      have : (0 : ℤ) < S - tAfternoonEnd W S := by omega
      exact_mod_cast this
    have hn : (0 : ℚ) ≤ ((u - tAfternoonEnd W S : ℤ) : ℚ) := by
      have : (0 : ℤ) ≤ u - tAfternoonEnd W S := by omega
      exact_mod_cast this
    have he : (0 : ℚ) ≤ 1 - (schedMorning act + schedAfternoon act) := by
      rw [hsum]; norm_num
    have := mul_nonneg (div_nonneg hn hd.le) he
    linarith

lemma fractionAt_le_one (act : String) (W S u : ℤ) : fractionAt act W S u ≤ 1 := by
  have hm := schedMorning_nonneg act
  have ha := schedAfternoon_nonneg act
  have hsum := schedSum act
  unfold fractionAt
  split_ifs with h1 h2 h3 h4
  · norm_num
  · norm_num
  · have hd : (0 : ℚ) < ((tMorningEnd W S - W : ℤ) : ℚ) := by
      have : (0 : ℤ) < tMorningEnd W S - W := by omega
      exact_mod_cast this
    have hr : ((u - W : ℤ) : ℚ) / ((tMorningEnd W S - W : ℤ) : ℚ) ≤ 1 := by
      rw [div_le_one hd]
      exact_mod_cast (by omega : u - W ≤ tMorningEnd W S - W)
    have := mul_le_of_le_one_left hm hr
    linarith
  · have hd : (0 : ℚ) < ((tAfternoonEnd W S - tMorningEnd W S : ℤ) : ℚ) := by
      have : (0 : ℤ) < tAfternoonEnd W S - tMorningEnd W S := by omega
      exact_mod_cast this
    have hr : ((u - tMorningEnd W S : ℤ) : ℚ) /
        ((tAfternoonEnd W S - tMorningEnd W S : ℤ) : ℚ) ≤ 1 := by
      rw [div_le_one hd]
      exact_mod_cast (by omega : u - tMorningEnd W S ≤ tAfternoonEnd W S - tMorningEnd W S)
    have := mul_le_of_le_one_left ha hr
    linarith
  · have hd : (0 : ℚ) < ((S - tAfternoonEnd W S : ℤ) : ℚ) := by
      have : (0 : ℤ) < S - tAfternoonEnd W S := by omega
      exact_mod_cast this
    have he : (0 : ℚ) ≤ 1 - (schedMorning act + schedAfternoon act) := by
      rw [hsum]; norm_num
    have hr : ((u - tAfternoonEnd W S : ℤ) : ℚ) / ((S - tAfternoonEnd W S : ℤ) : ℚ) ≤ 1 := by
      rw [div_le_one hd]
      exact_mod_cast (by omega : u - tAfternoonEnd W S ≤ S - tAfternoonEnd W S)
    have := mul_le_of_le_one_left he hr
    linarith


lemma fractionAt_mono (act : String) (W S : ℤ) {u v : ℤ} (huv : u ≤ v) :
    fractionAt act W S u ≤ fractionAt act W S v := by
  have hm := schedMorning_nonneg act
  have ha := schedAfternoon_nonneg act
  have hsum := schedSum act
  by_cases h1u : u ≤ W
  · rw [frac_zero act h1u]
    exact fractionAt_nonneg act W S v
  · by_cases h2u : S ≤ u
    · rw [frac_one act h1u h2u, frac_one act (by omega) (by omega : S ≤ v)]
    · by_cases h2v : S ≤ v
      · rw [frac_one act (by omega) h2v]
        exact fractionAt_le_one act W S u
      · have h1v : ¬v ≤ W := by omega
        unfold fractionAt
        rw [if_neg h1u, if_neg h2u, if_neg h1v, if_neg h2v]
        by_cases h3u : u ≤ tMorningEnd W S
        · have hdM : (0 : ℚ) < ((tMorningEnd W S - W : ℤ) : ℚ) := by
            have : (0 : ℤ) < tMorningEnd W S - W := by omega
            exact_mod_cast this
          have hru1 : ((u - W : ℤ) : ℚ) / ((tMorningEnd W S - W : ℤ) : ℚ) ≤ 1 := by
            rw [div_le_one hdM]
            exact_mod_cast (by omega : u - W ≤ tMorningEnd W S - W)
          have hvalu : ((u - W : ℤ) : ℚ) / ((tMorningEnd W S - W : ℤ) : ℚ) * schedMorning act ≤
              schedMorning act := mul_le_of_le_one_left hm hru1
          by_cases h3v : v ≤ tMorningEnd W S
          · rw [if_pos h3u, if_pos h3v]
            apply mul_le_mul_of_nonneg_right _ hm
            apply (div_le_div_right hdM).mpr
            exact_mod_cast (by omega : u - W ≤ v - W)
          · rw [if_pos h3u, if_neg h3v]
            by_cases h4v : v ≤ tAfternoonEnd W S
            · rw [if_pos h4v]
              have hdA : (0 : ℚ) < ((tAfternoonEnd W S - tMorningEnd W S : ℤ) : ℚ) := by
                have : (0 : ℤ) < tAfternoonEnd W S - tMorningEnd W S := by omega
                exact_mod_cast this
              have hrv0 : (0 : ℚ) ≤ ((v - tMorningEnd W S : ℤ) : ℚ) /
                  ((tAfternoonEnd W S - tMorningEnd W S : ℤ) : ℚ) := by
                apply div_nonneg _ hdA.le
                exact_mod_cast (by omega : (0 : ℤ) ≤ v - tMorningEnd W S)
              have := mul_nonneg hrv0 ha
              linarith
            · rw [if_neg h4v]
              have hdE : (0 : ℚ) < ((S - tAfternoonEnd W S : ℤ) : ℚ) := by
                have : (0 : ℤ) < S - tAfternoonEnd W S := by omega
                exact_mod_cast this
              have hrv0 : (0 : ℚ) ≤ ((v - tAfternoonEnd W S : ℤ) : ℚ) /
                  ((S - tAfternoonEnd W S : ℤ) : ℚ) := by
                apply div_nonneg _ hdE.le
                exact_mod_cast (by omega : (0 : ℤ) ≤ v - tAfternoonEnd W S)
              have he : (0 : ℚ) ≤ 1 - (schedMorning act + schedAfternoon act) := by
                rw [hsum]; norm_num
              have := mul_nonneg hrv0 he
              linarith
        · have h3v : ¬v ≤ tMorningEnd W S := by omega
          rw [if_neg h3u, if_neg h3v]
          by_cases h4u : u ≤ tAfternoonEnd W S
          · have hdA : (0 : ℚ) < ((tAfternoonEnd W S - tMorningEnd W S : ℤ) : ℚ) := by
              have : (0 : ℤ) < tAfternoonEnd W S - tMorningEnd W S := by omega
              exact_mod_cast this
            have hru1 : ((u - tMorningEnd W S : ℤ) : ℚ) /
                ((tAfternoonEnd W S - tMorningEnd W S : ℤ) : ℚ) ≤ 1 := by
              rw [div_le_one hdA]
              exact_mod_cast (by omega : u - tMorningEnd W S ≤
                tAfternoonEnd W S - tMorningEnd W S)
            have hvalu : ((u - tMorningEnd W S : ℤ) : ℚ) /
                ((tAfternoonEnd W S - tMorningEnd W S : ℤ) : ℚ) * schedAfternoon act ≤
                schedAfternoon act := mul_le_of_le_one_left ha hru1
            by_cases h4v : v ≤ tAfternoonEnd W S
            · rw [if_pos h4u, if_pos h4v]
              have hmono : ((u - tMorningEnd W S : ℤ) : ℚ) /
                  ((tAfternoonEnd W S - tMorningEnd W S : ℤ) : ℚ) ≤
                  ((v - tMorningEnd W S : ℤ) : ℚ) /
                  ((tAfternoonEnd W S - tMorningEnd W S : ℤ) : ℚ) := by
                apply (div_le_div_right hdA).mpr
                exact_mod_cast (by omega : u - tMorningEnd W S ≤ v - tMorningEnd W S)
              have := mul_le_mul_of_nonneg_right hmono ha
              linarith
            · rw [if_pos h4u, if_neg h4v]
              have hdE : (0 : ℚ) < ((S - tAfternoonEnd W S : ℤ) : ℚ) := by
                have : (0 : ℤ) < S - tAfternoonEnd W S := by omega
                exact_mod_cast this
              have hrv0 : (0 : ℚ) ≤ ((v - tAfternoonEnd W S : ℤ) : ℚ) /
                  ((S - tAfternoonEnd W S : ℤ) : ℚ) := by
                apply div_nonneg _ hdE.le
                exact_mod_cast (by omega : (0 : ℤ) ≤ v - tAfternoonEnd W S)
              have he : (0 : ℚ) ≤ 1 - (schedMorning act + schedAfternoon act) := by
                rw [hsum]; norm_num
              have := mul_nonneg hrv0 he
              linarith
          · have h4v : ¬v ≤ tAfternoonEnd W S := by omega
            rw [if_neg h4u, if_neg h4v]
            have hdE : (0 : ℚ) < ((S - tAfternoonEnd W S : ℤ) : ℚ) := by
              have : (0 : ℤ) < S - tAfternoonEnd W S := by omega
              exact_mod_cast this
            have he : (0 : ℚ) ≤ 1 - (schedMorning act + schedAfternoon act) := by
              rw [hsum]; norm_num
            have hmono : ((u - tAfternoonEnd W S : ℤ) : ℚ) /
                ((S - tAfternoonEnd W S : ℤ) : ℚ) ≤
                ((v - tAfternoonEnd W S : ℤ) : ℚ) /
                ((S - tAfternoonEnd W S : ℤ) : ℚ) := by
              apply (div_le_div_right hdE).mpr
              exact_mod_cast (by omega : u - tAfternoonEnd W S ≤ v - tAfternoonEnd W S)
            have := mul_le_mul_of_nonneg_right hmono he
            linarith


/-- C3 (amended): for every normalized context whose wake instant precedes
its sleep instant, the schedule's `fractionAt` is 0 at or before wake, 1 at
or after sleep, always within [0, 1], and monotone non-decreasing on the
wake-sleep interval. -/
theorem C3_pacing_contract (ctx : Ctx) (h : ctx.wake < ctx.sleep) :
    (∀ t, t ≤ ctx.wake → computeSchedule ctx t = 0) ∧
    (∀ t, ctx.sleep ≤ t → computeSchedule ctx t = 1) ∧
    (∀ t, 0 ≤ computeSchedule ctx t ∧ computeSchedule ctx t ≤ 1) ∧
    (∀ s t, ctx.wake ≤ s → s ≤ t → t ≤ ctx.sleep →
      computeSchedule ctx s ≤ computeSchedule ctx t) := by
  refine ⟨?_, ?_, ?_, ?_⟩
  · intro t ht
    exact frac_zero ctx.activity_level ht
  · intro t ht
    exact frac_one ctx.activity_level (by omega) ht
  · intro t
    exact ⟨fractionAt_nonneg ctx.activity_level ctx.wake ctx.sleep t,
      fractionAt_le_one ctx.activity_level ctx.wake ctx.sleep t⟩
  · intro s t _ hst _
    exact fractionAt_mono ctx.activity_level ctx.wake ctx.sleep hst

/-- C3 counterexample: with wake_time 22:00 and sleep_time 06:00 (both
anchored to the same day, so sleep precedes wake), `fractionAt` at the sleep
instant is 0, not 1 — the `now <= wake` check fires first — refuting the
claim for arbitrary normalized profiles. -/
theorem C3_pacing_counterexample :
    (ctx1 profInv 43200000).sleep ≤ 21600000 ∧
    computeSchedule (ctx1 profInv 43200000) 21600000 ≠ 1 := by
  constructor
  · decide
  · have h0 : computeSchedule (ctx1 profInv 43200000) 21600000 = 0 :=
      frac_zero (ctx1 profInv 43200000).activity_level (by decide)
    rw [h0]
    norm_num

/-- Witness for C3 at the default 07:00-23:00 window. -/
theorem C3_pacing_contract_witness :
    ctxS.wake < ctxS.sleep ∧ computeSchedule ctxS 25200000 = 0 ∧
    computeSchedule ctxS 82800000 = 1 :=
  ⟨by decide, (C3_pacing_contract ctxS (by decide)).1 25200000 (by decide),
   (C3_pacing_contract ctxS (by decide)).2.1 82800000 (by decide)⟩

end SmartWaterBottle
